import Mathlib

/-!
Shallow embedding of the api-gateway notification submission core:
request validation (`api/models/request_models.py`), response shaping
(`api/models/response_models.py`), the Redis-backed cache service
(`api/services/cache_service.py`), the RabbitMQ queue service
(`api/services/queue_service.py`), the rate-limiting middleware
(`api/middleware/rate_limiter.py`) and the notification routes
(`api/routes/notifications.py`).

JSON dictionaries are modelled as association lists of `JValue`; the Redis
backend is a key-value map with absolute-time expiries plus a reachability
flag (an unreachable backend makes every client call raise, which the
service layer catches); the broker is a list of published messages plus
connectivity flags.  UUID generation is modelled as an injective supply
`gen : Nat -> String` consumed left to right.
-/

/-- JSON values as produced by `request.get_json()` and consumed by
`json.dumps`/`json.loads`. -/
inductive JValue where
  | str : String → JValue
  | num : Int → JValue
  | bool : Bool → JValue
  | null : JValue
  | obj : List (String × JValue) → JValue
  | arr : List JValue → JValue

/-- Python truthiness of a JSON value. -/
def JValue.truthy : JValue → Bool
  | .str s => !s.isEmpty
  | .num n => n != 0
  | .bool b => b
  | .null => false
  | .obj l => !l.isEmpty
  | .arr l => !l.isEmpty

/-- `isinstance(v, str)`. -/
def JValue.isStr : JValue → Bool
  | .str _ => true
  | _ => false

/-- First-match lookup in a JSON dictionary (`data[k]` / `k in data`). -/
def jlook : List (String × JValue) → String → Option JValue
  | [], _ => none
  | (f, v) :: rest, k => if k = f then some v else jlook rest k

/-- Python `data.get(k)`: `None` when the key is absent. -/
def pyGet (data : List (String × JValue)) (k : String) : JValue :=
  (jlook data k).getD JValue.null

/-- Python `data.get(k, default)`. -/
def pyGetD (data : List (String × JValue)) (k : String) (d : JValue) : JValue :=
  (jlook data k).getD d

/-- Field access on a JSON object (`sd[k]`); the source would raise
`KeyError` on a missing key, but every record the routes read was written
by the routes themselves and carries all fields. -/
def jget (v : JValue) (k : String) : JValue :=
  match v with
  | .obj l => pyGet l k
  | _ => JValue.null

/-- String rendering of a numeric JSON value, for f-string interpolation. -/
def jshow : JValue → String
  | .num n => toString n
  | .str s => s
  | _ => ""

/-- `", ".join(errors)`. -/
def joinComma : List String → String
  | [] => ""
  | [s] => s
  | s :: rest => s ++ ", " ++ joinComma rest

/-! ## Response models (`api/models/response_models.py`) -/

/-- `StandardResponse.success(data, message, meta=None)`. -/
def StandardResponse.success (data : JValue) (message : String) (meta : JValue) : JValue :=
  .obj [("success", .bool true), ("data", data), ("message", .str message), ("meta", meta)]

/-- `StandardResponse.error(error, message, meta=None)`. -/
def StandardResponse.error (error message : String) (meta : JValue) : JValue :=
  .obj [("success", .bool false), ("error", .str error), ("message", .str message), ("meta", meta)]

/-- `NotificationResponse.create(notification_id, status, estimated_delivery)`;
the `estimated_delivery` entry is added only when the argument is truthy. -/
def NotificationResponse.create (nid status : String) (est : Option String) : JValue :=
  match est with
  | some e =>
      if e.isEmpty then .obj [("notification_id", .str nid), ("status", .str status)]
      else .obj [("notification_id", .str nid), ("status", .str status), ("estimated_delivery", .str e)]
  | none => .obj [("notification_id", .str nid), ("status", .str status)]

/-- `StatusResponse.create(...)`; the field values come straight from the
stored record, and `delivery_info` is appended when truthy. -/
def StatusResponse.create (nid status created_at updated_at : JValue) (delivery_info : Option JValue) : JValue :=
  match delivery_info with
  | some di =>
      if di.truthy then
        .obj [("notification_id", nid), ("status", status), ("created_at", created_at),
              ("updated_at", updated_at), ("delivery_info", di)]
      else
        .obj [("notification_id", nid), ("status", status), ("created_at", created_at),
              ("updated_at", updated_at)]
  | none =>
      .obj [("notification_id", nid), ("status", status), ("created_at", created_at),
            ("updated_at", updated_at)]

/-! ## Request validation (`api/models/request_models.py`) -/

/-- The per-required-field check: `if field not in data or not data[field]:
errors.append(f"'{field}' is required.")`. -/
def requiredError (data : List (String × JValue)) (f : String) : List String :=
  match jlook data f with
  | none => ["\x27" ++ f ++ "\x27 is required."]
  | some v => if v.truthy then [] else ["\x27" ++ f ++ "\x27 is required."]

/-- `if field in data and not isinstance(data[field], str): errors.append(msg)`. -/
def strTypeError (data : List (String × JValue)) (f msg : String) : List String :=
  match jlook data f with
  | none => []
  | some v => if v.isStr then [] else [msg]

/-- The `variables` block: an object in which every value must be a string. -/
def variablesErrors (data : List (String × JValue)) : List String :=
  match jlook data "variables" with
  | none => []
  | some (.obj vs) =>
      vs.foldr (fun kv acc =>
        (if kv.2.isStr then [] else ["variables." ++ kv.1 ++ " must be a string"]) ++ acc) []
  | some _ => ["variables must be an object"]

/-- `NotificationRequest.validate(data, notification_type)`: `none` means the
request is valid, `some errs` carries the error list. -/
def NotificationRequest.validate (data : List (String × JValue)) (_nt : String) : Option (List String) :=
  if data.isEmpty then some ["Request body is required"]
  else
    let errs :=
      requiredError data "user_id" ++ requiredError data "template_id" ++
      strTypeError data "user_id" "user_id must be a string" ++
      strTypeError data "template_id" "template_id must be a string" ++
      variablesErrors data ++
      strTypeError data "idempotency_key" "idempotency_key must be a string"
    if errs.isEmpty then none else some errs

/-- `EmailNotificationRequest` subclasses `NotificationRequest` with `pass`:
its `validate` is the inherited method. -/
def EmailNotificationRequest.validate (data : List (String × JValue)) (nt : String) : Option (List String) :=
  NotificationRequest.validate data nt

/-- `PushNotificationRequest` subclasses `NotificationRequest` with `pass`. -/
def PushNotificationRequest.validate (data : List (String × JValue)) (nt : String) : Option (List String) :=
  NotificationRequest.validate data nt

example : NotificationRequest.validate [("user_id", .str "u1"), ("template_id", .str "t1")] "email" = none := rfl

example : NotificationRequest.validate [("user_id", .str "u1")] "email" =
    some ["\x27template_id\x27 is required."] := rfl

/-! ## Redis backend model

A Redis value is either an integer counter (rate limiting) or a stored JSON
document (`json.dumps` of a dict; `setex`/`get` round-trip through
`json.loads`).  Entries carry an optional absolute expiry deadline; a key is
live while `now < deadline`.  `reachable = false` makes every client call
raise (modelled as `none`), which the `CacheService` layer catches. -/

inductive RVal where
  | int : Int → RVal
  | json : JValue → RVal

structure Redis where
  reachable : Bool
  now : Nat
  entries : String → Option (RVal × Option Nat)

/-- The value of a key that has not expired, `none` otherwise. -/
def Redis.live (r : Redis) (k : String) : Option RVal :=
  match r.entries k with
  | some (v, some d) => if r.now < d then some v else none
  | some (v, none) => some v
  | none => none

/-- Overwrite one entry. -/
def Redis.setEntry (r : Redis) (k : String) (v : RVal) (d : Option Nat) : Redis :=
  { r with entries := fun x => if x = k then some (v, d) else r.entries x }

/-- `client.ping()`. -/
def Redis.ping (r : Redis) : Option (Unit × Redis) :=
  if r.reachable then some ((), r) else none

/-- `client.get(k)` (with `decode_responses=True`). -/
def Redis.rget (r : Redis) (k : String) : Option (Option RVal × Redis) :=
  if r.reachable then some (r.live k, r) else none

/-- `client.setex(k, ttl, v)`: stores `v` and sets the expiry `ttl` seconds
from now. -/
def Redis.setex (r : Redis) (k : String) (ttl : Nat) (v : RVal) : Option (Unit × Redis) :=
  if r.reachable then some ((), r.setEntry k v (some (r.now + ttl))) else none

/-- `client.incr(k)`: an absent or expired key becomes `1` with no expiry; an
integer key is incremented keeping its expiry; a non-integer value raises. -/
def Redis.incr (r : Redis) (k : String) : Option (Int × Redis) :=
  if r.reachable then
    match r.live k with
    | some (.int n) =>
        some (n + 1, r.setEntry k (.int (n + 1))
          (match r.entries k with | some (_, d) => d | none => none))
    | some (.json _) => none
    | none => some (1, r.setEntry k (.int 1) none)
  else none

/-- `client.expire(k, w)`: sets the expiry of a live key to `w` seconds from
now; returns whether the key existed. -/
def Redis.expire (r : Redis) (k : String) (w : Nat) : Option (Bool × Redis) :=
  if r.reachable then
    match r.live k with
    | some v => some (true, r.setEntry k v (some (r.now + w)))
    | none => some (false, r)
  else none

/-- `client.ttl(k)`: remaining seconds, `-1` for no expiry, `-2` for a
missing/expired key. -/
def Redis.ttlCmd (r : Redis) (k : String) : Option (Int × Redis) :=
  if r.reachable then
    some ((match r.entries k with
      | some (_, some d) => if r.now < d then ((d : Int) - (r.now : Int)) else -2
      | some (_, none) => -1
      | none => -2), r)
  else none

/-- Move the clock of the backend forward (time passing between requests). -/
def Redis.atTime (r : Redis) (t : Nat) : Redis :=
  { r with now := t }

/-! ## Cache key namespaces -/

def idemKey (k : String) : String := "idempotency:" ++ k

def statusKey (nid : String) : String := "notification:" ++ nid ++ ":status"

def rlKey (identifier : String) : String := "rate_limit:" ++ identifier

/-! ## `CacheService` (`api/services/cache_service.py`)

Each method takes the backend state and returns its result together with the
new backend state; every client exception is caught and turned into the
documented degraded result. -/

/-- `CacheService.is_connected()`. -/
def CacheService.is_connected (r : Redis) : Bool :=
  (r.ping).isSome

/-- `CacheService.check_idempotency(key)`: returns the cached response on a
hit, `none` on a miss or on any backend error. -/
def CacheService.check_idempotency (r : Redis) (key : String) : Option JValue × Redis :=
  match r.rget (idemKey key) with
  | some (some (.json j), r1) => (some j, r1)
  | some (some (.int n), r1) => (some (.num n), r1)
  | some (none, r1) => (none, r1)
  | none => (none, r)

/-- `CacheService.store_idempotency(key, response_data, ttl=86400)`. -/
def CacheService.store_idempotency (r : Redis) (key : String) (resp : JValue) : Bool × Redis :=
  match r.setex (idemKey key) 86400 (.json resp) with
  | some (_, r1) => (true, r1)
  | none => (false, r)

/-- `CacheService.get_notification_status(notification_id)`. -/
def CacheService.get_notification_status (r : Redis) (nid : String) : Option JValue × Redis :=
  match r.rget (statusKey nid) with
  | some (some (.json j), r1) => (some j, r1)
  | some (some (.int n), r1) => (some (.num n), r1)
  | some (none, r1) => (none, r1)
  | none => (none, r)

/-- `CacheService.set_notification_status(notification_id, status_data, ttl=86400)`. -/
def CacheService.set_notification_status (r : Redis) (nid : String) (sd : JValue) : Bool × Redis :=
  match r.setex (statusKey nid) 86400 (.json sd) with
  | some (_, r1) => (true, r1)
  | none => (false, r)

/-- `CacheService.check_rate_limit(identifier, limit=None, window=60)`:
increments the counter, sets the window expiry on the first request, and
returns `(count <= limit, count)`; on backend error fails open to
`(True, 0)`. -/
def CacheService.check_rate_limit (r : Redis) (limit : Int) (identifier : String) (window : Nat) :
    (Bool × Int) × Redis :=
  match r.incr (rlKey identifier) with
  | some (c, r1) =>
      if c = 1 then
        match r1.expire (rlKey identifier) window with
        | some (_, r2) => ((decide (c ≤ limit), c), r2)
        | none => ((true, 0), r1)
      else ((decide (c ≤ limit), c), r1)
  | none => ((true, 0), r)

/-- The degraded dictionary `get_rate_limit_info` returns when the backend
raises. -/
def rlInfoDegraded : JValue :=
  .obj [("limit", .num 0), ("remaining", .num 0), ("reset_in_seconds", .num 60)]

/-- `CacheService.get_rate_limit_info(identifier)`: reads the counter and its
TTL and reports `{limit, remaining = max(0, limit - count), reset_in_seconds}`;
a backend error (including `int()` failing on a non-numeric value) degrades. -/
def CacheService.get_rate_limit_info (r : Redis) (limit : Int) (identifier : String) : JValue × Redis :=
  match r.rget (rlKey identifier) with
  | some (cnt, r1) =>
      match r1.ttlCmd (rlKey identifier) with
      | some (t, r2) =>
          match cnt with
          | some (.json _) => (rlInfoDegraded, r2)
          | some (.int n) =>
              (.obj [("limit", .num limit), ("remaining", .num (max 0 (limit - n))),
                     ("reset_in_seconds", .num (if t > 0 then t else 60))], r2)
          | none =>
              (.obj [("limit", .num limit), ("remaining", .num (max 0 limit)),
                     ("reset_in_seconds", .num (if t > 0 then t else 60))], r2)
      | none => (rlInfoDegraded, r1)
  | none => (rlInfoDegraded, r)

/-! ## `QueueService` (`api/services/queue_service.py`) -/

/-- The message dictionary built by `publish_notification` and serialized as
the broker message body.  The optional keyword arguments the routes never
pass (`title` ... `metadata`) are `None` and default as in the source. -/
structure Message where
  notification_id : String
  correlation_id : String
  type : String
  user_id : JValue
  template_id : JValue
  vars : JValue
  idempotency_key : JValue
  created_at : String
  queued_at : String
  retry_count : Nat
  max_retries : Nat
  title : JValue
  message : JValue
  player_id : JValue
  to_email : JValue
  from_email : JValue
  subject : JValue
  content : JValue
  html_content : JValue
  metadata : JValue

/-- One `basic_publish` call: exchange, routing key, body, and the pika
`BasicProperties`. -/
structure PubMsg where
  exchange : String
  routing_key : String
  body : Message
  delivery_mode : Nat
  content_type : String
  correlation_id : String
  message_id : String

/-- Broker connection state: `connected` is `connection.is_open` and
`channel.is_open` together; `connectOk` says whether an in-request
`connect()` would succeed; `publishOk` whether `basic_publish` succeeds. -/
structure Queue where
  connected : Bool
  connectOk : Bool
  publishOk : Bool
  exchange : String
  published : List PubMsg

/-- `QueueService.is_connected()`. -/
def QueueService.is_connected (q : Queue) : Bool :=
  q.connected

/-- The body of `publish_notification` after the connection is ensured:
generate `notification_id` and `correlation_id`, build the message (the
`vars` field models the `variables` key, defaulted with `variables or {}`),
and `basic_publish` it persistently (`delivery_mode=2`) with routing key =
notification type and `correlation_id`/`message_id` properties. -/
def QueueService.publishBody (q : Queue) (gen : Nat → String) (ctr : Nat)
    (nowIso : String) (notification_type : String)
    (user_id template_id vars idempotency_key : JValue) :
    Option String × Queue × Nat :=
  let notification_id := gen ctr
  let correlation_id := gen (ctr + 1)
  let msg : Message := {
    notification_id := notification_id
    correlation_id := correlation_id
    type := notification_type
    user_id := user_id
    template_id := template_id
    vars := if vars.truthy then vars else .obj []
    idempotency_key := idempotency_key
    created_at := nowIso
    queued_at := nowIso
    retry_count := 0
    max_retries := 3
    title := .null
    message := .null
    player_id := .null
    to_email := .null
    from_email := .null
    subject := .null
    content := .null
    html_content := .null
    metadata := .obj [] }
  if q.publishOk then
    (some notification_id,
     { q with published := q.published ++ [{
         exchange := q.exchange
         routing_key := notification_type
         body := msg
         delivery_mode := 2
         content_type := "application/json"
         correlation_id := correlation_id
         message_id := notification_id }] },
     ctr + 2)
  else (none, q, ctr + 2)

/-- `QueueService.publish_notification(...)`: reconnects if needed, generates
`notification_id` and `correlation_id`, builds the message, and publishes it
persistently with routing key = notification type.  Returns
`(some notification_id)` on success, `none` when an exception was raised,
together with the new broker state and uuid-supply position. -/
def QueueService.publish_notification (q : Queue) (gen : Nat → String) (ctr : Nat)
    (nowIso : String) (notification_type : String)
    (user_id template_id vars idempotency_key : JValue) :
    Option String × Queue × Nat :=
  if QueueService.is_connected q then
    QueueService.publishBody q gen ctr nowIso notification_type user_id template_id vars idempotency_key
  else if q.connectOk then
    QueueService.publishBody { q with connected := true } gen ctr nowIso notification_type
      user_id template_id vars idempotency_key
  else (none, q, ctr)

/-! ## Application state and routes (`api/routes/notifications.py`,
`api/middleware/rate_limiter.py`)

`cache = none` / `queue = none` model `app.cache_service is None` /
`app.queue_service is None` (startup connection failure in
`api/main.py`).  `ctr` is the position in the uuid supply.  `nowIso` stands
for `datetime.utcnow().isoformat() + 'Z'` and `est` for the computed
`estimated_delivery` string, both opaque to the control flow. -/

structure AppState where
  cache : Option Redis
  queue : Option Queue
  ctr : Nat

structure HttpResult where
  body : JValue
  status : Nat

/-- The 503 body built by both submission endpoints. -/
def svcUnavailResp : JValue :=
  StandardResponse.error "service_unavailable" "Notification service is temporarily unavailable" .null

/-- The 500 body built when `publish_notification` raises. -/
def queueErrorResp : JValue :=
  StandardResponse.error "queue_error" "Failed to queue notification" .null

/-- The 400 body for a failed validation. -/
def validationErrorResp (errs : List String) : JValue :=
  StandardResponse.error "validation_error" ("Validation failed: " ++ joinComma errs) .null

/-- The email route from the broker-availability gate onward (`notifications.py`
lines 49-107): 503 when the queue service is absent or disconnected, 500 when
the publish raises, otherwise the 202 success path with the post-publish
status and idempotency writes. -/
def emailAfterIdem (gen : Nat → String) (nowIso est : String)
    (data : List (String × JValue)) (st1 : AppState) : HttpResult × AppState :=
  let ikey := pyGet data "idempotency_key"
  match st1.queue with
  | none => (⟨svcUnavailResp, 503⟩, st1)
  | some q =>
    if QueueService.is_connected q then
      match QueueService.publish_notification q gen st1.ctr nowIso "email"
          (pyGet data "user_id") (pyGet data "template_id")
          (pyGetD data "variables" (.obj [])) (pyGet data "idempotency_key") with
      | (none, q1, ctr1) =>
          (⟨queueErrorResp, 500⟩, { st1 with queue := some q1, ctr := ctr1 })
      | (some nid, q1, ctr1) =>
          let response_data := NotificationResponse.create nid "queued" (some est)
          let response := StandardResponse.success response_data "Email notification queued successfully" .null
          let st2 : AppState := { st1 with queue := some q1, ctr := ctr1 }
          match st2.cache with
          | none => (⟨response, 202⟩, st2)
          | some r =>
            let status_data : JValue := .obj [
              ("notification_id", .str nid), ("type", .str "email"), ("status", .str "queued"),
              ("user_id", pyGet data "user_id"), ("template_id", pyGet data "template_id"),
              ("created_at", .str nowIso), ("updated_at", .str nowIso)]
            match CacheService.set_notification_status r nid status_data with
            | (_, r2) =>
              if ikey.truthy then
                match CacheService.store_idempotency r2 (jshow ikey) response with
                | (_, r3) => (⟨response, 202⟩, { st2 with cache := some r3 })
              else (⟨response, 202⟩, { st2 with cache := some r2 })
    else (⟨svcUnavailResp, 503⟩, st1)

/-- The push route from the broker-availability gate onward (`notifications.py`
lines 136-194): 503 when the queue service is absent or disconnected, 500 when
the publish raises, otherwise the 202 success path with the post-publish
status and idempotency writes. -/
def pushAfterIdem (gen : Nat → String) (nowIso est : String)
    (data : List (String × JValue)) (st1 : AppState) : HttpResult × AppState :=
  let ikey := pyGet data "idempotency_key"
  match st1.queue with
  | none => (⟨svcUnavailResp, 503⟩, st1)
  | some q =>
    if QueueService.is_connected q then
      match QueueService.publish_notification q gen st1.ctr nowIso "push"
          (pyGet data "user_id") (pyGet data "template_id")
          (pyGetD data "variables" (.obj [])) (pyGet data "idempotency_key") with
      | (none, q1, ctr1) =>
          (⟨queueErrorResp, 500⟩, { st1 with queue := some q1, ctr := ctr1 })
      | (some nid, q1, ctr1) =>
          let response_data := NotificationResponse.create nid "queued" (some est)
          let response := StandardResponse.success response_data "Push notification queued successfully" .null
          let st2 : AppState := { st1 with queue := some q1, ctr := ctr1 }
          match st2.cache with
          | none => (⟨response, 202⟩, st2)
          | some r =>
            let status_data : JValue := .obj [
              ("notification_id", .str nid), ("type", .str "push"), ("status", .str "queued"),
              ("user_id", pyGet data "user_id"), ("template_id", pyGet data "template_id"),
              ("created_at", .str nowIso), ("updated_at", .str nowIso)]
            match CacheService.set_notification_status r nid status_data with
            | (_, r2) =>
              if ikey.truthy then
                match CacheService.store_idempotency r2 (jshow ikey) response with
                | (_, r3) => (⟨response, 202⟩, { st2 with cache := some r3 })
              else (⟨response, 202⟩, { st2 with cache := some r2 })
    else (⟨svcUnavailResp, 503⟩, st1)

/-- `send_email_notification` (route body, after auth and rate limiting).
Line 47 of the source returns the cached idempotent response with the
literal status `20`. -/
def send_email_notification (gen : Nat → String) (nowIso est : String)
    (st : AppState) (data : List (String × JValue)) : HttpResult × AppState :=
  match EmailNotificationRequest.validate data "email" with
  | some errs => (⟨validationErrorResp errs, 400⟩, st)
  | none =>
    let ikey := pyGet data "idempotency_key"
    let idemHit : Option JValue × AppState :=
      if ikey.truthy then
        match st.cache with
        | some r =>
            match CacheService.check_idempotency r (jshow ikey) with
            | (c, r1) => (c, { st with cache := some r1 })
        | none => (none, st)
      else (none, st)
    match idemHit with
    | (some cached, st1) =>
        if cached.truthy then (⟨cached, 20⟩, st1) else emailAfterIdem gen nowIso est data st1
    | (none, st1) => emailAfterIdem gen nowIso est data st1

/-- `send_push_notification` (route body).  Identical to the email route
except for the notification type, the success message, the estimated
delivery offset, and the idempotent replay status `202`. -/
def send_push_notification (gen : Nat → String) (nowIso est : String)
    (st : AppState) (data : List (String × JValue)) : HttpResult × AppState :=
  match PushNotificationRequest.validate data "push" with
  | some errs => (⟨validationErrorResp errs, 400⟩, st)
  | none =>
    let ikey := pyGet data "idempotency_key"
    let idemHit : Option JValue × AppState :=
      if ikey.truthy then
        match st.cache with
        | some r =>
            match CacheService.check_idempotency r (jshow ikey) with
            | (c, r1) => (c, { st with cache := some r1 })
        | none => (none, st)
      else (none, st)
    match idemHit with
    | (some cached, st1) =>
        if cached.truthy then (⟨cached, 202⟩, st1) else pushAfterIdem gen nowIso est data st1
    | (none, st1) => pushAfterIdem gen nowIso est data st1

/-- The 503 body of the status route. -/
def statusUnavailResp : JValue :=
  StandardResponse.error "service_unavailable" "Status service is temporarily unavailable" .null

/-- The 404 body of the status route. -/
def notFoundResp (nid : String) : JValue :=
  StandardResponse.error "not_found" ("Notification " ++ nid ++ " not found") .null

/-- `get_notification_status` (route body, after auth). -/
def get_notification_status (st : AppState) (nid : String) : HttpResult × AppState :=
  match st.cache with
  | none => (⟨statusUnavailResp, 503⟩, st)
  | some r =>
    if CacheService.is_connected r then
      match CacheService.get_notification_status r nid with
      | (sdOpt, r1) =>
        let st1 : AppState := { st with cache := some r1 }
        match sdOpt with
        | none => (⟨notFoundResp nid, 404⟩, st1)
        | some sd =>
          if sd.truthy then
            let response_data := StatusResponse.create (jget sd "notification_id") (jget sd "status")
              (jget sd "created_at") (jget sd "updated_at")
              (some (.obj [("type", jget sd "type"), ("user_id", jget sd "user_id"),
                           ("template_id", jget sd "template_id")]))
            (⟨StandardResponse.success response_data "Notification status retrieved successfully" .null, 200⟩, st1)
          else (⟨notFoundResp nid, 404⟩, st1)
    else (⟨statusUnavailResp, 503⟩, st)

/-- The `rate_limit` decorator (`api/middleware/rate_limiter.py`): skipped
when there is no cache service or no identifier; otherwise one atomic
counter increment decides admission before the wrapped handler runs.  The
`X-RateLimit-*` response headers are not modelled. -/
def rate_limit (limit : Int) (identifier : Option String)
    (handler : AppState → HttpResult × AppState) (st : AppState) : HttpResult × AppState :=
  match st.cache with
  | none => handler st
  | some r =>
    match identifier with
    | none => handler st
    | some idf =>
      match CacheService.check_rate_limit r limit idf 60 with
      | ((allowed, _c), r1) =>
        if allowed then
          match CacheService.get_rate_limit_info r1 limit idf with
          | (_info, r2) => handler { st with cache := some r2 }
        else
          match CacheService.get_rate_limit_info r1 limit idf with
          | (info, r2) =>
            (⟨StandardResponse.error "rate_limit_exceeded"
                ("Rate limit exceeded. Limit: " ++ jshow (jget info "limit") ++
                 " requests per minute. Try again in " ++ jshow (jget info "reset_in_seconds") ++ " seconds.")
                (.obj [("rate_limit", info)]), 429⟩,
             { st with cache := some r2 })

/-! ## Concrete fixtures used by witnesses and counterexamples -/

/-- An empty, reachable Redis backend at time 0. -/
def rBase : Redis := { reachable := true, now := 0, entries := fun _ => none }

/-- An unreachable Redis backend. -/
def rDown : Redis := { reachable := false, now := 0, entries := fun _ => none }

/-- A connected broker with no published messages. -/
def qBase : Queue :=
  { connected := true, connectOk := true, publishOk := true,
    exchange := "notifications.direct", published := [] }

/-- A disconnected broker whose in-request reconnect would also fail. -/
def qDown : Queue :=
  { connected := false, connectOk := false, publishOk := false,
    exchange := "notifications.direct", published := [] }

/-- A connected broker whose `basic_publish` raises. -/
def qPubFail : Queue :=
  { connected := true, connectOk := true, publishOk := false,
    exchange := "notifications.direct", published := [] }

/-- A concrete injective uuid supply. -/
def gen0 : Nat → String := fun n => "uuid-" ++ toString n

/-- A minimal valid request body. -/
def body1 : List (String × JValue) := [("user_id", .str "u1"), ("template_id", .str "t1")]

/-- A valid request body with an idempotency key. -/
def body1k : List (String × JValue) :=
  [("user_id", .str "u1"), ("template_id", .str "t1"), ("idempotency_key", .str "k1")]

example :
    (send_email_notification gen0 "T0" "E0" ⟨some rBase, some qBase, 0⟩ body1).1.status = 202 := rfl

example :
    (send_email_notification gen0 "T0" "E0" ⟨some rBase, some qDown, 0⟩ body1).1.status = 503 := rfl

example :
    (send_email_notification gen0 "T0" "E0" ⟨some rBase, some qBase, 0⟩ []).1.status = 400 := rfl

/-- A stored idempotent response (the success envelope of a first email
submission). -/
def storedResp : JValue :=
  StandardResponse.success (NotificationResponse.create "uuid-0" "queued" (some "E0"))
    "Email notification queued successfully" .null

/-- A reachable backend holding the idempotency record for key `k1`. -/
def rWithIdem : Redis :=
  { reachable := true, now := 0,
    entries := fun k => if k = idemKey "k1" then some (.json storedResp, some 86400) else none }

example :
    (send_email_notification gen0 "T0" "E0" ⟨some rWithIdem, some qBase, 0⟩ body1k).1.status = 20 := rfl

example :
    (send_email_notification gen0 "T0" "E0" ⟨some rWithIdem, some qBase, 0⟩ body1k).1.body = storedResp := rfl

example :
    (send_push_notification gen0 "T0" "E0" ⟨some rWithIdem, some qBase, 0⟩ body1k).1.status = 202 := rfl

example :
    (get_notification_status
      (send_email_notification gen0 "T0" "E0" ⟨some rBase, some qBase, 0⟩ body1).2 "uuid-0").1.status = 200 := rfl

example :
    (get_notification_status
      (send_email_notification gen0 "T0" "E0" ⟨some rBase, some qBase, 0⟩ body1).2 "uuid-0").1.body =
    StandardResponse.success
      (StatusResponse.create (.str "uuid-0") (.str "queued") (.str "T0") (.str "T0")
        (some (.obj [("type", .str "email"), ("user_id", .str "u1"), ("template_id", .str "t1")])))
      "Notification status retrieved successfully" .null := rfl

example :
    (get_notification_status
      { (send_email_notification gen0 "T0" "E0" ⟨some rBase, some qBase, 0⟩ body1).2 with
        cache := (send_email_notification gen0 "T0" "E0" ⟨some rBase, some qBase, 0⟩ body1).2.cache.map
          (fun r => r.atTime 86400) } "uuid-0").1.status = 404 := rfl

/-- A backend whose rate counter for identifier `api` stands at 99 in a
window expiring at time 60. -/
def r99 : Redis :=
  { reachable := true, now := 0,
    entries := fun k => if k = rlKey "api" then some (.int 99, some 60) else none }

/-- The same backend with the counter at 100. -/
def r100 : Redis :=
  { reachable := true, now := 0,
    entries := fun k => if k = rlKey "api" then some (.int 100, some 60) else none }

/-- The same backend at time 70, after the window expired. -/
def rExpired : Redis :=
  { reachable := true, now := 70,
    entries := fun k => if k = rlKey "api" then some (.int 100, some 60) else none }

example :
    (rate_limit 100 (some "api") (fun st => send_email_notification gen0 "T0" "E0" st body1)
      ⟨some r99, some qBase, 0⟩).1.status = 202 := rfl

example :
    (rate_limit 100 (some "api") (fun st => send_email_notification gen0 "T0" "E0" st body1)
      ⟨some r100, some qBase, 0⟩).1.status = 429 := rfl

example :
    (rate_limit 100 (some "api") (fun st => send_email_notification gen0 "T0" "E0" st body1)
      ⟨some r100, some qBase, 0⟩).1.body =
    StandardResponse.error "rate_limit_exceeded"
      "Rate limit exceeded. Limit: 100 requests per minute. Try again in 60 seconds."
      (.obj [("rate_limit", .obj [("limit", .num 100), ("remaining", .num 0),
                                  ("reset_in_seconds", .num 60)])]) := rfl

example :
    (CacheService.check_rate_limit rExpired 100 "api" 60).1 = (true, 1) := rfl

example :
    (CacheService.check_rate_limit rExpired 100 "api" 60).2.entries (rlKey "api") =
      some (.int 1, some 130) := rfl

/-! ## Helper lemmas -/

theorem isEmpty_false_of_ne_nil {α : Type} {l : List α} (h : l ≠ []) : l.isEmpty = false := by
  cases l with
  | nil => exact absurd rfl h
  | cons x xs => rfl

/-- A field that is absent, empty, or not a string. -/
def badField (data : List (String × JValue)) (f : String) : Prop :=
  jlook data f = none ∨ jlook data f = some (.str "") ∨
    ∃ v, jlook data f = some v ∧ v.isStr = false

/-- Some `variables` value is not a string. -/
def badVariablesValue (data : List (String × JValue)) : Prop :=
  ∃ vs p, jlook data "variables" = some (.obj vs) ∧ p ∈ vs ∧ p.2.isStr = false

theorem requiredError_or_strTypeError_ne_nil {data : List (String × JValue)} {f : String}
    (m : String) (h : badField data f) :
    requiredError data f ≠ [] ∨ strTypeError data f m ≠ [] := by
  rcases h with h | h | ⟨v, hv, hstr⟩
  · left; simp [requiredError, h]
  · left
    have he : (JValue.str "").truthy = false := rfl
    simp [requiredError, h, he]
  · right; simp [strTypeError, hv, hstr]

theorem variablesErrors_ne_nil {data : List (String × JValue)}
    (h : badVariablesValue data) : variablesErrors data ≠ [] := by
  rcases h with ⟨vs, p, hlook, hmem, hbad⟩
  have key : ∀ (l : List (String × JValue)), p ∈ l →
      l.foldr (fun kv acc =>
        (if kv.2.isStr then [] else ["variables." ++ kv.1 ++ " must be a string"]) ++ acc) [] ≠ [] := by
    intro l
    induction l with
    | nil => intro h; cases h
    | cons x rest ih =>
        intro hm
        simp only [List.foldr_cons, ne_eq, List.append_eq_nil]
        rcases List.mem_cons.mp hm with rfl | hm
        · intro hc
          rw [hbad] at hc
          simp at hc
        · intro hc
          exact ih hm hc.2
  simp only [variablesErrors, hlook]
  exact key vs hmem

theorem validate_some_of_bad {data : List (String × JValue)} (nt : String)
    (h : badField data "user_id" ∨ badField data "template_id" ∨ badVariablesValue data) :
    ∃ errs, NotificationRequest.validate data nt = some errs := by
  by_cases hd : data.isEmpty = true
  · exact ⟨["Request body is required"], by simp [NotificationRequest.validate, hd]⟩
  · have hd' : data.isEmpty = false := by simpa using hd
    have hne : (requiredError data "user_id" ++ requiredError data "template_id" ++
        strTypeError data "user_id" "user_id must be a string" ++
        strTypeError data "template_id" "template_id must be a string" ++
        variablesErrors data ++
        strTypeError data "idempotency_key" "idempotency_key must be a string") ≠ [] := by
      intro hnil
      simp only [List.append_eq_nil] at hnil
      obtain ⟨⟨⟨⟨⟨h1, h2⟩, h3⟩, h4⟩, h5⟩, h6⟩ := hnil
      rcases h with hb | hb | hb
      · rcases requiredError_or_strTypeError_ne_nil "user_id must be a string" hb with hx | hx
        · exact hx h1
        · exact hx h3
      · rcases requiredError_or_strTypeError_ne_nil "template_id must be a string" hb with hx | hx
        · exact hx h2
        · exact hx h4
      · exact variablesErrors_ne_nil hb h5
    refine ⟨requiredError data "user_id" ++ requiredError data "template_id" ++
        strTypeError data "user_id" "user_id must be a string" ++
        strTypeError data "template_id" "template_id must be a string" ++
        variablesErrors data ++
        strTypeError data "idempotency_key" "idempotency_key must be a string", ?_⟩
    simp only [NotificationRequest.validate, hd', Bool.false_eq_true, if_false]
    rw [if_neg (by rw [isEmpty_false_of_ne_nil hne]; exact Bool.false_ne_true)]

theorem email_validation_short_circuit (gen : Nat → String) (nowIso est : String)
    (st : AppState) {data : List (String × JValue)} {errs : List String}
    (hval : EmailNotificationRequest.validate data "email" = some errs) :
    send_email_notification gen nowIso est st data = (⟨validationErrorResp errs, 400⟩, st) := by
  unfold send_email_notification
  rw [hval]

theorem push_validation_short_circuit (gen : Nat → String) (nowIso est : String)
    (st : AppState) {data : List (String × JValue)} {errs : List String}
    (hval : PushNotificationRequest.validate data "push" = some errs) :
    send_push_notification gen nowIso est st data = (⟨validationErrorResp errs, 400⟩, st) := by
  unfold send_push_notification
  rw [hval]

theorem jlook_append (f k : String) (v : JValue) (data : List (String × JValue)) (h : f ≠ k) :
    jlook (data ++ [(k, v)]) f = jlook data f := by
  induction data with
  | nil => simp [jlook, h]
  | cons a rest ih =>
      simp only [List.cons_append, jlook]
      by_cases hf : f = a.1
      · simp [hf]
      · simp [hf, ih]

/-! ## Claim theorems -/

/-- C7: a submission whose `user_id` or `template_id` is missing, empty or
not a string, or one of whose `variables` values is not a string, is
rejected by both submission endpoints with `validation_error` (400), and the
application state — broker and cache included — is returned unchanged, for
every broker/cache state, in particular with both unreachable. -/
theorem validation_rejected_without_side_effects
    (gen : Nat → String) (nowIso est : String) (st : AppState)
    (data : List (String × JValue))
    (hbad : badField data "user_id" ∨ badField data "template_id" ∨ badVariablesValue data) :
    ∃ errs, EmailNotificationRequest.validate data "email" = some errs ∧
      PushNotificationRequest.validate data "push" = some errs ∧
      send_email_notification gen nowIso est st data = (⟨validationErrorResp errs, 400⟩, st) ∧
      send_push_notification gen nowIso est st data = (⟨validationErrorResp errs, 400⟩, st) := by
  obtain ⟨errs, hv⟩ := validate_some_of_bad "email" hbad
  have hve : EmailNotificationRequest.validate data "email" = some errs := hv
  have hvp : PushNotificationRequest.validate data "push" = some errs := hv
  exact ⟨errs, hve, hvp,
    email_validation_short_circuit gen nowIso est st hve,
    push_validation_short_circuit gen nowIso est st hvp⟩

/-- Witness for C7: a request missing `user_id`, with both the broker and
the cache unreachable, is rejected with 400 and no state change. -/
theorem validation_rejected_without_side_effects_witness :
    (badField [("template_id", JValue.str "t1")] "user_id" ∨
      badField [("template_id", JValue.str "t1")] "template_id" ∨
      badVariablesValue [("template_id", JValue.str "t1")]) ∧
    (∃ errs, EmailNotificationRequest.validate [("template_id", JValue.str "t1")] "email" = some errs ∧
      PushNotificationRequest.validate [("template_id", JValue.str "t1")] "push" = some errs ∧
      send_email_notification gen0 "T0" "E0" ⟨some rDown, some qDown, 0⟩ [("template_id", JValue.str "t1")] =
        (⟨validationErrorResp errs, 400⟩, ⟨some rDown, some qDown, 0⟩) ∧
      send_push_notification gen0 "T0" "E0" ⟨some rDown, some qDown, 0⟩ [("template_id", JValue.str "t1")] =
        (⟨validationErrorResp errs, 400⟩, ⟨some rDown, some qDown, 0⟩)) :=
  ⟨Or.inl (Or.inl rfl),
   validation_rejected_without_side_effects gen0 "T0" "E0" ⟨some rDown, some qDown, 0⟩
     [("template_id", JValue.str "t1")] (Or.inl (Or.inl rfl))⟩

/-- C10: the email and push request classes validate with the identical
predicate: both `validate` methods are the inherited
`NotificationRequest.validate`, the validator ignores the notification type,
and (on a nonempty body) it ignores every field other than `user_id`,
`template_id`, `variables` and `idempotency_key` — no email- or
push-specific field is ever consulted. -/
theorem validators_identical :
    (∀ data nt, EmailNotificationRequest.validate data nt = NotificationRequest.validate data nt) ∧
    (∀ data nt, PushNotificationRequest.validate data nt = NotificationRequest.validate data nt) ∧
    (∀ data a b, NotificationRequest.validate data a = NotificationRequest.validate data b) ∧
    (∀ data k v nt, data ≠ [] → k ≠ "user_id" → k ≠ "template_id" → k ≠ "variables" →
      k ≠ "idempotency_key" →
      NotificationRequest.validate (data ++ [(k, v)]) nt = NotificationRequest.validate data nt) := by
  refine ⟨fun _ _ => rfl, fun _ _ => rfl, fun _ _ _ => rfl, ?_⟩
  intro data k v nt hne hk1 hk2 hk3 hk4
  have l1 := jlook_append "user_id" k v data (Ne.symm hk1)
  have l2 := jlook_append "template_id" k v data (Ne.symm hk2)
  have l3 := jlook_append "variables" k v data (Ne.symm hk3)
  have l4 := jlook_append "idempotency_key" k v data (Ne.symm hk4)
  have he1 : (data ++ [(k, v)]).isEmpty = false :=
    isEmpty_false_of_ne_nil (by simp)
  have he2 : data.isEmpty = false := isEmpty_false_of_ne_nil hne
  simp only [NotificationRequest.validate, requiredError, strTypeError, variablesErrors,
    l1, l2, l3, l4, he1, he2]

/-- Witness for C10: adding an unknown field `push_token` to a valid body
does not change the validation outcome. -/
theorem validators_identical_witness :
    body1 ≠ [] ∧
    NotificationRequest.validate (body1 ++ [("push_token", JValue.str "x")]) "push" =
      NotificationRequest.validate body1 "push" :=
  ⟨List.cons_ne_nil _ _,
   validators_identical.2.2.2 body1 "push_token" (JValue.str "x") "push"
     (List.cons_ne_nil _ _) (by decide) (by decide) (by decide) (by decide)⟩

theorem email_replay (gen : Nat → String) (nowIso est : String)
    {cq : Option Queue} {n : Nat} {data : List (String × JValue)} {r : Redis}
    {k : String} {resp : JValue}
    (hval : EmailNotificationRequest.validate data "email" = none)
    (hkey : jlook data "idempotency_key" = some (.str k))
    (hk : k ≠ "")
    (hreach : r.reachable = true)
    (hstore : r.live (idemKey k) = some (.json resp))
    (hresp : resp.truthy = true) :
    send_email_notification gen nowIso est ⟨some r, cq, n⟩ data = (⟨resp, 20⟩, ⟨some r, cq, n⟩) := by
  have hkf : k.isEmpty = false := by
    rw [Bool.eq_false_iff]
    intro hx
    exact hk ((String.isEmpty_iff k).mp hx)
  unfold send_email_notification
  rw [hval]
  have hik : (JValue.str k).truthy = true := by simp [JValue.truthy, hkf]
  simp only [pyGet, hkey, Option.getD_some, hik, if_true, jshow,
    CacheService.check_idempotency, Redis.rget, hreach, hstore, hresp]

theorem push_replay (gen : Nat → String) (nowIso est : String)
    {cq : Option Queue} {n : Nat} {data : List (String × JValue)} {r : Redis}
    {k : String} {resp : JValue}
    (hval : PushNotificationRequest.validate data "push" = none)
    (hkey : jlook data "idempotency_key" = some (.str k))
    (hk : k ≠ "")
    (hreach : r.reachable = true)
    (hstore : r.live (idemKey k) = some (.json resp))
    (hresp : resp.truthy = true) :
    send_push_notification gen nowIso est ⟨some r, cq, n⟩ data = (⟨resp, 202⟩, ⟨some r, cq, n⟩) := by
  have hkf : k.isEmpty = false := by
    rw [Bool.eq_false_iff]
    intro hx
    exact hk ((String.isEmpty_iff k).mp hx)
  unfold send_push_notification
  rw [hval]
  have hik : (JValue.str k).truthy = true := by simp [JValue.truthy, hkf]
  simp only [pyGet, hkey, Option.getD_some, hik, if_true, jshow,
    CacheService.check_idempotency, Redis.rget, hreach, hstore, hresp]

/-- C1: on an idempotency hit both endpoints return the stored response
unchanged, with no broker publish and no cache write (the returned state is
the input state); but the email endpoint replays with the HTTP status
literal `20` (`notifications.py` line 47), not the original success status
202 that the claim (and the push endpoint) state. -/
theorem idempotent_replay_email_returns_status_20 (gen : Nat → String) (nowIso est : String)
    {cq : Option Queue} {n : Nat} {data : List (String × JValue)} {r : Redis}
    {k : String} {resp : JValue}
    (hval : NotificationRequest.validate data "email" = none)
    (hkey : jlook data "idempotency_key" = some (.str k))
    (hk : k ≠ "")
    (hreach : r.reachable = true)
    (hstore : r.live (idemKey k) = some (.json resp))
    (hresp : resp.truthy = true) :
    send_email_notification gen nowIso est ⟨some r, cq, n⟩ data = (⟨resp, 20⟩, ⟨some r, cq, n⟩) ∧
    send_push_notification gen nowIso est ⟨some r, cq, n⟩ data = (⟨resp, 202⟩, ⟨some r, cq, n⟩) :=
  ⟨email_replay gen nowIso est hval hkey hk hreach hstore hresp,
   push_replay gen nowIso est hval hkey hk hreach hstore hresp⟩

/-- Witness for C1: the second submission of `body1k` (idempotency key
`k1`, record present in `rWithIdem`) replays `storedResp` with status 20 on
the email endpoint and 202 on the push endpoint. -/
theorem idempotent_replay_email_returns_status_20_witness :
    (NotificationRequest.validate body1k "email" = none ∧
     jlook body1k "idempotency_key" = some (.str "k1") ∧
     "k1" ≠ "" ∧ rWithIdem.reachable = true ∧
     rWithIdem.live (idemKey "k1") = some (.json storedResp) ∧
     storedResp.truthy = true) ∧
    send_email_notification gen0 "T0" "E0" ⟨some rWithIdem, some qBase, 0⟩ body1k =
      (⟨storedResp, 20⟩, ⟨some rWithIdem, some qBase, 0⟩) ∧
    send_push_notification gen0 "T0" "E0" ⟨some rWithIdem, some qBase, 0⟩ body1k =
      (⟨storedResp, 202⟩, ⟨some rWithIdem, some qBase, 0⟩) :=
  ⟨⟨rfl, rfl, by decide, rfl, rfl, rfl⟩,
   idempotent_replay_email_returns_status_20 gen0 "T0" "E0"
     rfl rfl (by decide) rfl rfl rfl⟩

/-- C8: a successful publish places on the broker exactly one message whose
body carries `retry_count = 0`, `max_retries = 3`, the freshly generated
`notification_id` and a distinct `correlation_id`, published with routing
key = notification type in persistent delivery mode (2) with
`correlation_id`/`message_id` properties, and the call returns the
`notification_id`. -/
theorem publish_envelope_properties (q : Queue) (gen : Nat → String) (ctr : Nat)
    (nowIso nt : String) (uid tid vars ik : JValue)
    (hconn : q.connected = true) (hpub : q.publishOk = true)
    (hgen : gen ctr ≠ gen (ctr + 1)) :
    QueueService.publish_notification q gen ctr nowIso nt uid tid vars ik =
      (some (gen ctr),
       { q with published := q.published ++ [{
           exchange := q.exchange
           routing_key := nt
           body := { notification_id := gen ctr, correlation_id := gen (ctr + 1), type := nt,
                     user_id := uid, template_id := tid,
                     vars := if vars.truthy then vars else .obj [], idempotency_key := ik,
                     created_at := nowIso, queued_at := nowIso, retry_count := 0, max_retries := 3,
                     title := .null, message := .null, player_id := .null, to_email := .null,
                     from_email := .null, subject := .null, content := .null, html_content := .null,
                     metadata := .obj [] }
           delivery_mode := 2
           content_type := "application/json"
           correlation_id := gen (ctr + 1)
           message_id := gen ctr }] },
       ctr + 2) ∧
    gen ctr ≠ gen (ctr + 1) := by
  refine ⟨?_, hgen⟩
  simp only [QueueService.publish_notification, QueueService.is_connected, hconn, if_true,
    QueueService.publishBody, hpub]

/-- Witness for C8: a concrete publish on `qBase` with the injective supply
`gen0`. -/
theorem publish_envelope_properties_witness :
    (qBase.connected = true ∧ qBase.publishOk = true ∧ gen0 0 ≠ gen0 (0 + 1)) ∧
    (QueueService.publish_notification qBase gen0 0 "T0" "email"
        (.str "u1") (.str "t1") (.obj []) .null =
      (some (gen0 0),
       { qBase with published := qBase.published ++ [{
           exchange := qBase.exchange
           routing_key := "email"
           body := { notification_id := gen0 0, correlation_id := gen0 (0 + 1), type := "email",
                     user_id := .str "u1", template_id := .str "t1",
                     vars := if (JValue.obj []).truthy then (JValue.obj []) else .obj [],
                     idempotency_key := .null,
                     created_at := "T0", queued_at := "T0", retry_count := 0, max_retries := 3,
                     title := .null, message := .null, player_id := .null, to_email := .null,
                     from_email := .null, subject := .null, content := .null, html_content := .null,
                     metadata := .obj [] }
           delivery_mode := 2
           content_type := "application/json"
           correlation_id := gen0 (0 + 1)
           message_id := gen0 0 }] },
       0 + 2) ∧
     gen0 0 ≠ gen0 (0 + 1)) :=
  ⟨⟨rfl, rfl, by decide⟩,
   publish_envelope_properties qBase gen0 0 "T0" "email" (.str "u1") (.str "t1") (.obj []) .null
     rfl rfl (by decide)⟩

/-- Counterexample for C3: with the cache backend unreachable, the status
route returns `service_unavailable` with HTTP 503 — not the not-found
outcome the claim states. -/
theorem status_query_cache_down_counterexample :
    (get_notification_status ⟨some rDown, none, 0⟩ "n1").1.status = 503 ∧
    (get_notification_status ⟨some rDown, none, 0⟩ "n1").1.body = statusUnavailResp ∧
    (get_notification_status ⟨some rDown, none, 0⟩ "n1").1.status ≠ 404 :=
  ⟨rfl, rfl, by decide⟩

/-- C3 (amended): the store-level lookups degrade gracefully — an
idempotency lookup and a status lookup on an unreachable backend both
return a miss without raising — but the status *route* gates on cache
connectivity first and answers `service_unavailable` (503) when the backend
is unreachable; only a connected backend whose lookup misses yields 404. -/
theorem cache_failure_degradation :
    (∀ (r : Redis) (k : String), r.reachable = false →
      CacheService.check_idempotency r k = (none, r)) ∧
    (∀ (r : Redis) (nid : String), r.reachable = false →
      CacheService.get_notification_status r nid = (none, r)) ∧
    (∀ (cq : Option Queue) (n : Nat) (r : Redis) (nid : String), r.reachable = false →
      get_notification_status ⟨some r, cq, n⟩ nid = (⟨statusUnavailResp, 503⟩, ⟨some r, cq, n⟩)) := by
  refine ⟨?_, ?_, ?_⟩
  · intro r k h
    simp [CacheService.check_idempotency, Redis.rget, h]
  · intro r nid h
    simp [CacheService.get_notification_status, Redis.rget, h]
  · intro cq n r nid h
    simp [get_notification_status, CacheService.is_connected, Redis.ping, h]

/-- Witness for C3 (amended), at the unreachable backend `rDown`. -/
theorem cache_failure_degradation_witness :
    rDown.reachable = false ∧
    CacheService.check_idempotency rDown "k1" = (none, rDown) ∧
    CacheService.get_notification_status rDown "n1" = (none, rDown) ∧
    get_notification_status ⟨some rDown, none, 0⟩ "n1" =
      (⟨statusUnavailResp, 503⟩, ⟨some rDown, none, 0⟩) :=
  ⟨rfl, cache_failure_degradation.1 rDown "k1" rfl,
   cache_failure_degradation.2.1 rDown "n1" rfl,
   cache_failure_degradation.2.2 none 0 rDown "n1" rfl⟩

/-- An idempotency lookup that misses (no live record) returns `none` and
leaves the backend unchanged, whatever the reachability. -/
theorem check_idempotency_miss {r : Redis} {k : String} (h : r.live (idemKey k) = none) :
    CacheService.check_idempotency r k = (none, r) := by
  unfold CacheService.check_idempotency Redis.rget
  by_cases hr : r.reachable = true
  · rw [if_pos hr, h]
  · rw [if_neg hr]

/-- `check_idempotency` never mutates the backend. -/
theorem check_idempotency_state (r : Redis) (k : String) :
    (CacheService.check_idempotency r k).2 = r := by
  unfold CacheService.check_idempotency Redis.rget
  by_cases hr : r.reachable = true
  · rw [if_pos hr]
    cases hl : r.live (idemKey k) with
    | none => rfl
    | some v => cases v <;> rfl
  · rw [if_neg hr]

theorem emailAfterIdem_broker_down (gen : Nat → String) (nowIso est : String)
    (data : List (String × JValue)) (st1 : AppState)
    (hdown : st1.queue = none ∨ ∃ q, st1.queue = some q ∧ q.connected = false) :
    emailAfterIdem gen nowIso est data st1 = (⟨svcUnavailResp, 503⟩, st1) := by
  obtain ⟨c, cq, n⟩ := st1
  rcases hdown with h | ⟨q, h, hcq⟩ <;> simp only [] at h <;> subst h
  · rfl
  · simp [emailAfterIdem, QueueService.is_connected, hcq]

theorem pushAfterIdem_broker_down (gen : Nat → String) (nowIso est : String)
    (data : List (String × JValue)) (st1 : AppState)
    (hdown : st1.queue = none ∨ ∃ q, st1.queue = some q ∧ q.connected = false) :
    pushAfterIdem gen nowIso est data st1 = (⟨svcUnavailResp, 503⟩, st1) := by
  obtain ⟨c, cq, n⟩ := st1
  rcases hdown with h | ⟨q, h, hcq⟩ <;> simp only [] at h <;> subst h
  · rfl
  · simp [pushAfterIdem, QueueService.is_connected, hcq]

theorem emailAfterIdem_publish_error (gen : Nat → String) (nowIso est : String)
    (data : List (String × JValue)) (c : Option Redis) (q : Queue) (n : Nat)
    (hconn : q.connected = true) (hpub : q.publishOk = false) :
    emailAfterIdem gen nowIso est data ⟨c, some q, n⟩ = (⟨queueErrorResp, 500⟩, ⟨c, some q, n + 2⟩) := by
  have hqe : QueueService.publish_notification q gen n nowIso "email" (pyGet data "user_id")
      (pyGet data "template_id") (pyGetD data "variables" (.obj [])) (pyGet data "idempotency_key") =
      (none, q, n + 2) := by
    simp only [QueueService.publish_notification, QueueService.is_connected, hconn, if_true,
      QueueService.publishBody, hpub]
    simp
  simp [emailAfterIdem, QueueService.is_connected, hconn, hqe]

theorem pushAfterIdem_publish_error (gen : Nat → String) (nowIso est : String)
    (data : List (String × JValue)) (c : Option Redis) (q : Queue) (n : Nat)
    (hconn : q.connected = true) (hpub : q.publishOk = false) :
    pushAfterIdem gen nowIso est data ⟨c, some q, n⟩ = (⟨queueErrorResp, 500⟩, ⟨c, some q, n + 2⟩) := by
  have hqe : QueueService.publish_notification q gen n nowIso "push" (pyGet data "user_id")
      (pyGet data "template_id") (pyGetD data "variables" (.obj [])) (pyGet data "idempotency_key") =
      (none, q, n + 2) := by
    simp only [QueueService.publish_notification, QueueService.is_connected, hconn, if_true,
      QueueService.publishBody, hpub]
    simp
  simp [pushAfterIdem, QueueService.is_connected, hconn, hqe]

/-- When the idempotency check is skipped or misses, the email route is the
post-idempotency phase applied to the unchanged state. -/
theorem email_skips_replay (gen : Nat → String) (nowIso est : String)
    {c : Option Redis} {cq : Option Queue} {n : Nat} {data : List (String × JValue)}
    (hval : EmailNotificationRequest.validate data "email" = none)
    (hmiss : ∀ r, c = some r → r.live (idemKey (jshow (pyGet data "idempotency_key"))) = none) :
    send_email_notification gen nowIso est ⟨c, cq, n⟩ data =
      emailAfterIdem gen nowIso est data ⟨c, cq, n⟩ := by
  simp only [send_email_notification, hval]
  by_cases hik : (pyGet data "idempotency_key").truthy = true
  · rw [if_pos hik]
    cases c with
    | none => rfl
    | some r => simp only [check_idempotency_miss (hmiss r rfl)]
  · rw [if_neg hik]

theorem push_skips_replay (gen : Nat → String) (nowIso est : String)
    {c : Option Redis} {cq : Option Queue} {n : Nat} {data : List (String × JValue)}
    (hval : PushNotificationRequest.validate data "push" = none)
    (hmiss : ∀ r, c = some r → r.live (idemKey (jshow (pyGet data "idempotency_key"))) = none) :
    send_push_notification gen nowIso est ⟨c, cq, n⟩ data =
      pushAfterIdem gen nowIso est data ⟨c, cq, n⟩ := by
  simp only [send_push_notification, hval]
  by_cases hik : (pyGet data "idempotency_key").truthy = true
  · rw [if_pos hik]
    cases c with
    | none => rfl
    | some r => simp only [check_idempotency_miss (hmiss r rfl)]
  · rw [if_neg hik]

/-- The cache entry a given key holds in an application state (no entry when
the cache service is absent). -/
def AppState.cacheEntry (st : AppState) (k : String) : Option (RVal × Option Nat) :=
  match st.cache with
  | some r => r.entries k
  | none => none

/-- The broker publish log of an application state. -/
def AppState.published (st : AppState) : List PubMsg :=
  match st.queue with
  | some q => q.published
  | none => []

/-- The message dictionary `publish_notification` builds from its inputs. -/
def builtMessage (gen : Nat → String) (ctr : Nat) (nowIso nt : String)
    (uid tid vars ik : JValue) : Message :=
  { notification_id := gen ctr, correlation_id := gen (ctr + 1), type := nt,
    user_id := uid, template_id := tid,
    vars := if vars.truthy then vars else .obj [], idempotency_key := ik,
    created_at := nowIso, queued_at := nowIso, retry_count := 0, max_retries := 3,
    title := .null, message := .null, player_id := .null, to_email := .null,
    from_email := .null, subject := .null, content := .null, html_content := .null,
    metadata := .obj [] }

/-- The `basic_publish` call `publish_notification` makes. -/
def builtPubMsg (q : Queue) (gen : Nat → String) (ctr : Nat) (nowIso nt : String)
    (uid tid vars ik : JValue) : PubMsg :=
  { exchange := q.exchange, routing_key := nt,
    body := builtMessage gen ctr nowIso nt uid tid vars ik,
    delivery_mode := 2, content_type := "application/json",
    correlation_id := gen (ctr + 1), message_id := gen ctr }

theorem publish_success_eq (q : Queue) (gen : Nat → String) (ctr : Nat) (nowIso nt : String)
    (uid tid vars ik : JValue) (hconn : q.connected = true) (hpub : q.publishOk = true) :
    QueueService.publish_notification q gen ctr nowIso nt uid tid vars ik =
      (some (gen ctr),
       { q with published := q.published ++ [builtPubMsg q gen ctr nowIso nt uid tid vars ik] },
       ctr + 2) := by
  simp only [QueueService.publish_notification, QueueService.is_connected, hconn, if_true,
    QueueService.publishBody, hpub, builtPubMsg, builtMessage]

theorem emailAfterIdem_frame (gen : Nat → String) (nowIso est : String)
    (data : List (String × JValue)) (st1 : AppState) :
    (∀ k, (emailAfterIdem gen nowIso est data st1).2.cacheEntry k = st1.cacheEntry k) ∨
    (∃ m, (emailAfterIdem gen nowIso est data st1).2.published = st1.published ++ [m]) := by
  obtain ⟨c, cq, n⟩ := st1
  cases cq with
  | none => left; intro k; rfl
  | some q =>
    by_cases hconn : q.connected = true
    · by_cases hpub : q.publishOk = true
      · right
        simp only [emailAfterIdem, QueueService.is_connected, hconn, if_true,
          publish_success_eq q gen n nowIso "email" (pyGet data "user_id") (pyGet data "template_id")
            (pyGetD data "variables" (.obj [])) (pyGet data "idempotency_key") hconn hpub]
        cases c with
        | none => exact ⟨_, rfl⟩
        | some r =>
            by_cases hik : (pyGet data "idempotency_key").truthy = true
            · rw [hik]
              exact ⟨_, rfl⟩
            · rw [Bool.not_eq_true] at hik
              rw [hik]
              exact ⟨_, rfl⟩
      · left
        intro k
        rw [emailAfterIdem_publish_error gen nowIso est data c q n hconn
          (by simpa using hpub)]
        rfl
    · left
      intro k
      rw [emailAfterIdem_broker_down gen nowIso est data ⟨c, some q, n⟩
        (Or.inr ⟨q, rfl, by simpa using hconn⟩)]

theorem pushAfterIdem_frame (gen : Nat → String) (nowIso est : String)
    (data : List (String × JValue)) (st1 : AppState) :
    (∀ k, (pushAfterIdem gen nowIso est data st1).2.cacheEntry k = st1.cacheEntry k) ∨
    (∃ m, (pushAfterIdem gen nowIso est data st1).2.published = st1.published ++ [m]) := by
  obtain ⟨c, cq, n⟩ := st1
  cases cq with
  | none => left; intro k; rfl
  | some q =>
    by_cases hconn : q.connected = true
    · by_cases hpub : q.publishOk = true
      · right
        simp only [pushAfterIdem, QueueService.is_connected, hconn, if_true,
          publish_success_eq q gen n nowIso "push" (pyGet data "user_id") (pyGet data "template_id")
            (pyGetD data "variables" (.obj [])) (pyGet data "idempotency_key") hconn hpub]
        cases c with
        | none => exact ⟨_, rfl⟩
        | some r =>
            by_cases hik : (pyGet data "idempotency_key").truthy = true
            · rw [hik]
              exact ⟨_, rfl⟩
            · rw [Bool.not_eq_true] at hik
              rw [hik]
              exact ⟨_, rfl⟩
      · left
        intro k
        rw [pushAfterIdem_publish_error gen nowIso est data c q n hconn
          (by simpa using hpub)]
        rfl
    · left
      intro k
      rw [pushAfterIdem_broker_down gen nowIso est data ⟨c, some q, n⟩
        (Or.inr ⟨q, rfl, by simpa using hconn⟩)]

/-- Every email-route run is a validation rejection, an idempotent replay
(status 20), or the post-idempotency phase on the unchanged state. -/
theorem email_run_cases (gen : Nat → String) (nowIso est : String)
    (st : AppState) (data : List (String × JValue)) :
    (∃ errs, send_email_notification gen nowIso est st data = (⟨validationErrorResp errs, 400⟩, st)) ∨
    (∃ resp, send_email_notification gen nowIso est st data = (⟨resp, 20⟩, st)) ∨
    send_email_notification gen nowIso est st data = emailAfterIdem gen nowIso est data st := by
  obtain ⟨c, cq, n⟩ := st
  cases hv : EmailNotificationRequest.validate data "email" with
  | some errs => exact Or.inl ⟨errs, email_validation_short_circuit gen nowIso est _ hv⟩
  | none =>
    right
    by_cases hik : (pyGet data "idempotency_key").truthy = true
    · cases c with
      | none =>
        right
        simp only [send_email_notification, hv]
        rw [hik]
        rfl
      | some r =>
        rcases hc : CacheService.check_idempotency r (jshow (pyGet data "idempotency_key")) with ⟨copt, r1⟩
        have hr1 : r1 = r := by
          have h2 := check_idempotency_state r (jshow (pyGet data "idempotency_key"))
          rw [hc] at h2
          exact h2
        rw [hr1] at hc
        simp only [send_email_notification, hv, hc]
        rw [hik]
        cases copt with
        | none => right; rfl
        | some cached =>
          by_cases hct : cached.truthy = true
          · left
            refine ⟨cached, ?_⟩
            show (if cached.truthy = true then ((⟨cached, 20⟩ : HttpResult), (⟨some r, cq, n⟩ : AppState))
              else emailAfterIdem gen nowIso est data ⟨some r, cq, n⟩) =
              ((⟨cached, 20⟩ : HttpResult), (⟨some r, cq, n⟩ : AppState))
            rw [hct]
            rfl
          · right
            show (if cached.truthy = true then ((⟨cached, 20⟩ : HttpResult), (⟨some r, cq, n⟩ : AppState))
              else emailAfterIdem gen nowIso est data ⟨some r, cq, n⟩) =
              emailAfterIdem gen nowIso est data ⟨some r, cq, n⟩
            rw [Bool.not_eq_true] at hct
            rw [hct]
            rfl
    · right
      simp only [send_email_notification, hv]
      rw [Bool.not_eq_true] at hik
      rw [hik]
      rfl

/-- Every push-route run is a validation rejection, an idempotent replay
(status 202), or the post-idempotency phase on the unchanged state. -/
theorem push_run_cases (gen : Nat → String) (nowIso est : String)
    (st : AppState) (data : List (String × JValue)) :
    (∃ errs, send_push_notification gen nowIso est st data = (⟨validationErrorResp errs, 400⟩, st)) ∨
    (∃ resp, send_push_notification gen nowIso est st data = (⟨resp, 202⟩, st)) ∨
    send_push_notification gen nowIso est st data = pushAfterIdem gen nowIso est data st := by
  obtain ⟨c, cq, n⟩ := st
  cases hv : PushNotificationRequest.validate data "push" with
  | some errs => exact Or.inl ⟨errs, push_validation_short_circuit gen nowIso est _ hv⟩
  | none =>
    right
    by_cases hik : (pyGet data "idempotency_key").truthy = true
    · cases c with
      | none =>
        right
        simp only [send_push_notification, hv]
        rw [hik]
        rfl
      | some r =>
        rcases hc : CacheService.check_idempotency r (jshow (pyGet data "idempotency_key")) with ⟨copt, r1⟩
        have hr1 : r1 = r := by
          have h2 := check_idempotency_state r (jshow (pyGet data "idempotency_key"))
          rw [hc] at h2
          exact h2
        rw [hr1] at hc
        simp only [send_push_notification, hv, hc]
        rw [hik]
        cases copt with
        | none => right; rfl
        | some cached =>
          by_cases hct : cached.truthy = true
          · left
            refine ⟨cached, ?_⟩
            show (if cached.truthy = true then ((⟨cached, 202⟩ : HttpResult), (⟨some r, cq, n⟩ : AppState))
              else pushAfterIdem gen nowIso est data ⟨some r, cq, n⟩) =
              ((⟨cached, 202⟩ : HttpResult), (⟨some r, cq, n⟩ : AppState))
            rw [hct]
            rfl
          · right
            show (if cached.truthy = true then ((⟨cached, 202⟩ : HttpResult), (⟨some r, cq, n⟩ : AppState))
              else pushAfterIdem gen nowIso est data ⟨some r, cq, n⟩) =
              pushAfterIdem gen nowIso est data ⟨some r, cq, n⟩
            rw [Bool.not_eq_true] at hct
            rw [hct]
            rfl
    · right
      simp only [send_push_notification, hv]
      rw [Bool.not_eq_true] at hik
      rw [hik]
      rfl

/-- C2: status and idempotency records are written only after a successful
broker publish.  With the broker absent or disconnected a (non-replayed)
submission returns `service_unavailable` 503 with the whole state unchanged;
with the broker connected but the publish raising it returns `queue_error`
500 with no cache entry changed; and in every run of either endpoint, any
change to any cache entry is accompanied by a publish appended to the
broker log in that same run. -/
theorem records_only_after_successful_publish :
    (∀ (gen : Nat → String) (nowIso est : String) (c : Option Redis) (cq : Option Queue) (n : Nat)
       (data : List (String × JValue)),
      EmailNotificationRequest.validate data "email" = none →
      (∀ r, c = some r → r.live (idemKey (jshow (pyGet data "idempotency_key"))) = none) →
      (cq = none ∨ ∃ q, cq = some q ∧ q.connected = false) →
      send_email_notification gen nowIso est ⟨c, cq, n⟩ data = (⟨svcUnavailResp, 503⟩, ⟨c, cq, n⟩) ∧
      send_push_notification gen nowIso est ⟨c, cq, n⟩ data = (⟨svcUnavailResp, 503⟩, ⟨c, cq, n⟩)) ∧
    (∀ (gen : Nat → String) (nowIso est : String) (c : Option Redis) (q : Queue) (n : Nat)
       (data : List (String × JValue)),
      EmailNotificationRequest.validate data "email" = none →
      (∀ r, c = some r → r.live (idemKey (jshow (pyGet data "idempotency_key"))) = none) →
      q.connected = true → q.publishOk = false →
      send_email_notification gen nowIso est ⟨c, some q, n⟩ data =
        (⟨queueErrorResp, 500⟩, ⟨c, some q, n + 2⟩) ∧
      send_push_notification gen nowIso est ⟨c, some q, n⟩ data =
        (⟨queueErrorResp, 500⟩, ⟨c, some q, n + 2⟩)) ∧
    (∀ (gen : Nat → String) (nowIso est : String) (st : AppState) (data : List (String × JValue)),
      (∀ k, (send_email_notification gen nowIso est st data).2.cacheEntry k = st.cacheEntry k) ∨
      (∃ m, (send_email_notification gen nowIso est st data).2.published = st.published ++ [m])) ∧
    (∀ (gen : Nat → String) (nowIso est : String) (st : AppState) (data : List (String × JValue)),
      (∀ k, (send_push_notification gen nowIso est st data).2.cacheEntry k = st.cacheEntry k) ∨
      (∃ m, (send_push_notification gen nowIso est st data).2.published = st.published ++ [m])) := by
  refine ⟨?_, ?_, ?_, ?_⟩
  · intro gen nowIso est c cq n data hval hmiss hdown
    constructor
    · rw [email_skips_replay gen nowIso est hval hmiss]
      exact emailAfterIdem_broker_down gen nowIso est data ⟨c, cq, n⟩ hdown
    · rw [push_skips_replay gen nowIso est hval hmiss]
      exact pushAfterIdem_broker_down gen nowIso est data ⟨c, cq, n⟩ hdown
  · intro gen nowIso est c q n data hval hmiss hconn hpub
    constructor
    · rw [email_skips_replay gen nowIso est hval hmiss]
      exact emailAfterIdem_publish_error gen nowIso est data c q n hconn hpub
    · rw [push_skips_replay gen nowIso est hval hmiss]
      exact pushAfterIdem_publish_error gen nowIso est data c q n hconn hpub
  · intro gen nowIso est st data
    rcases email_run_cases gen nowIso est st data with ⟨errs, he⟩ | ⟨resp, he⟩ | he
    · rw [he]; left; intro k; rfl
    · rw [he]; left; intro k; rfl
    · rw [he]; exact emailAfterIdem_frame gen nowIso est data st
  · intro gen nowIso est st data
    rcases push_run_cases gen nowIso est st data with ⟨errs, he⟩ | ⟨resp, he⟩ | he
    · rw [he]; left; intro k; rfl
    · rw [he]; left; intro k; rfl
    · rw [he]; exact pushAfterIdem_frame gen nowIso est data st

/-- Witness for C2: concrete runs against a disconnected broker (503, state
unchanged), a broker whose publish raises (500, only the uuid counter
advances), and the frame property on a healthy state. -/
theorem records_only_after_successful_publish_witness :
    (EmailNotificationRequest.validate body1 "email" = none ∧ qDown.connected = false ∧
      qPubFail.connected = true ∧ qPubFail.publishOk = false) ∧
    (send_email_notification gen0 "T0" "E0" ⟨some rBase, some qDown, 0⟩ body1 =
        (⟨svcUnavailResp, 503⟩, ⟨some rBase, some qDown, 0⟩) ∧
     send_push_notification gen0 "T0" "E0" ⟨some rBase, some qDown, 0⟩ body1 =
        (⟨svcUnavailResp, 503⟩, ⟨some rBase, some qDown, 0⟩)) ∧
    (send_email_notification gen0 "T0" "E0" ⟨some rBase, some qPubFail, 0⟩ body1 =
        (⟨queueErrorResp, 500⟩, ⟨some rBase, some qPubFail, 0 + 2⟩) ∧
     send_push_notification gen0 "T0" "E0" ⟨some rBase, some qPubFail, 0⟩ body1 =
        (⟨queueErrorResp, 500⟩, ⟨some rBase, some qPubFail, 0 + 2⟩)) ∧
    ((∀ k, (send_email_notification gen0 "T0" "E0" ⟨some rBase, some qBase, 0⟩ body1).2.cacheEntry k =
        AppState.cacheEntry ⟨some rBase, some qBase, 0⟩ k) ∨
     (∃ m, (send_email_notification gen0 "T0" "E0" ⟨some rBase, some qBase, 0⟩ body1).2.published =
        AppState.published ⟨some rBase, some qBase, 0⟩ ++ [m])) :=
  ⟨⟨rfl, rfl, rfl, rfl⟩,
   records_only_after_successful_publish.1 gen0 "T0" "E0" (some rBase) (some qDown) 0 body1 rfl
     (fun r hr => by injection hr with h; rw [← h]; rfl) (Or.inr ⟨qDown, rfl, rfl⟩),
   records_only_after_successful_publish.2.1 gen0 "T0" "E0" (some rBase) qPubFail 0 body1 rfl
     (fun r hr => by injection hr with h; rw [← h]; rfl) rfl rfl,
   records_only_after_successful_publish.2.2.1 gen0 "T0" "E0" ⟨some rBase, some qBase, 0⟩ body1⟩

/-- `get_rate_limit_info` never mutates the backend. -/
theorem get_rate_limit_info_state (r : Redis) (limit : Int) (idf : String) :
    (CacheService.get_rate_limit_info r limit idf).2 = r := by
  obtain ⟨rr, rn, re⟩ := r
  cases rr with
  | false => rfl
  | true =>
    cases hent : re (rlKey idf) with
    | none =>
        simp [CacheService.get_rate_limit_info, Redis.rget, Redis.ttlCmd, Redis.live, hent]
    | some vd =>
      obtain ⟨v, d⟩ := vd
      cases d with
      | none =>
          cases v <;>
            simp [CacheService.get_rate_limit_info, Redis.rget, Redis.ttlCmd, Redis.live, hent]
      | some dl =>
        by_cases hd : rn < dl
        · cases v <;>
            simp [CacheService.get_rate_limit_info, Redis.rget, Redis.ttlCmd, Redis.live, hent, hd]
        · cases v <;>
            simp [CacheService.get_rate_limit_info, Redis.rget, Redis.ttlCmd, Redis.live, hent, hd]

/-- The rate-limit info dictionary shape. -/
def rlInfoObj (limit remaining reset : Int) : JValue :=
  .obj [("limit", .num limit), ("remaining", .num remaining), ("reset_in_seconds", .num reset)]

/-- With a live integer counter at `cnt ≥ 1`, `check_rate_limit` increments
it once, keeps the window deadline, and admits iff `cnt + 1 ≤ limit`. -/
theorem check_rate_limit_live (r : Redis) (limit : Int) (idf : String) {cnt : Int} {dl : Nat}
    (hreach : r.reachable = true)
    (hent : r.entries (rlKey idf) = some (.int cnt, some dl))
    (hdl : r.now < dl) (hcnt : 1 ≤ cnt) :
    CacheService.check_rate_limit r limit idf 60 =
      ((decide (cnt + 1 ≤ limit), cnt + 1),
       r.setEntry (rlKey idf) (.int (cnt + 1)) (some dl)) := by
  have hlive : r.live (rlKey idf) = some (.int cnt) := by
    simp [Redis.live, hent, hdl]
  have hincr : r.incr (rlKey idf) =
      some (cnt + 1, r.setEntry (rlKey idf) (.int (cnt + 1)) (some dl)) := by
    simp [Redis.incr, hreach, hlive, hent]
  have hne1 : ¬(cnt + 1 = 1) := by omega
  simp [CacheService.check_rate_limit, hincr, hne1]

/-- With an expired counter, `check_rate_limit` restarts the counter at 1
and sets a fresh 60-second window expiry. -/
theorem check_rate_limit_expired (r : Redis) (limit : Int) (idf : String) {cnt : Int} {dl : Nat}
    (hreach : r.reachable = true)
    (hent : r.entries (rlKey idf) = some (.int cnt, some dl))
    (hexp : dl ≤ r.now) :
    CacheService.check_rate_limit r limit idf 60 =
      ((decide ((1 : Int) ≤ limit), 1),
       (r.setEntry (rlKey idf) (.int 1) none).setEntry (rlKey idf) (.int 1) (some (r.now + 60))) ∧
    ((r.setEntry (rlKey idf) (.int 1) none).setEntry (rlKey idf) (.int 1)
        (some (r.now + 60))).entries (rlKey idf) = some (.int 1, some (r.now + 60)) := by
  have hlive : r.live (rlKey idf) = none := by
    simp [Redis.live, hent]
    omega
  have hincr : r.incr (rlKey idf) = some (1, r.setEntry (rlKey idf) (.int 1) none) := by
    simp [Redis.incr, hreach, hlive]
  have hlive1 : (r.setEntry (rlKey idf) (.int 1) none).live (rlKey idf) = some (.int 1) := by
    simp [Redis.live, Redis.setEntry]
  have hreach1 : (r.setEntry (rlKey idf) (.int 1) none).reachable = true := hreach
  have hnow1 : (r.setEntry (rlKey idf) (.int 1) none).now = r.now := rfl
  have hexpire : (r.setEntry (rlKey idf) (.int 1) none).expire (rlKey idf) 60 =
      some (true, (r.setEntry (rlKey idf) (.int 1) none).setEntry (rlKey idf) (.int 1)
        (some (r.now + 60))) := by
    simp [Redis.expire, hreach1, hlive1, hnow1]
  constructor
  · simp [CacheService.check_rate_limit, hincr, hexpire]
  · simp [Redis.setEntry]

theorem rate_limit_admits (limit : Int) (idf : String)
    (handler : AppState → HttpResult × AppState)
    {r : Redis} {cq : Option Queue} {n : Nat} {cnt : Int} {dl : Nat}
    (hreach : r.reachable = true)
    (hent : r.entries (rlKey idf) = some (.int cnt, some dl))
    (hdl : r.now < dl) (hcnt : 1 ≤ cnt)
    (hle : cnt + 1 ≤ limit) :
    rate_limit limit (some idf) handler ⟨some r, cq, n⟩ =
      handler ⟨some (r.setEntry (rlKey idf) (.int (cnt + 1)) (some dl)), cq, n⟩ := by
  have hchk := check_rate_limit_live r limit idf hreach hent hdl hcnt
  have hall : decide (cnt + 1 ≤ limit) = true := decide_eq_true hle
  simp [rate_limit, hchk, hall, get_rate_limit_info_state]

theorem rate_limit_rejects (limit : Int) (idf : String)
    (handler : AppState → HttpResult × AppState)
    {r : Redis} {cq : Option Queue} {n : Nat} {cnt : Int} {dl : Nat}
    (hreach : r.reachable = true)
    (hent : r.entries (rlKey idf) = some (.int cnt, some dl))
    (hdl : r.now < dl) (hcnt : 1 ≤ cnt)
    (hgt : limit < cnt + 1) :
    rate_limit limit (some idf) handler ⟨some r, cq, n⟩ =
      (⟨StandardResponse.error "rate_limit_exceeded"
          ("Rate limit exceeded. Limit: " ++ toString limit ++
           " requests per minute. Try again in " ++
           toString ((dl : Int) - (r.now : Int)) ++ " seconds.")
          (.obj [("rate_limit", rlInfoObj limit 0 ((dl : Int) - (r.now : Int)))]), 429⟩,
       ⟨some (r.setEntry (rlKey idf) (.int (cnt + 1)) (some dl)), cq, n⟩) := by
  have hchk := check_rate_limit_live r limit idf hreach hent hdl hcnt
  have hall : decide (cnt + 1 ≤ limit) = false := decide_eq_false (not_le.mpr hgt)
  have hre1 : (r.setEntry (rlKey idf) (.int (cnt + 1)) (some dl)).reachable = true := hreach
  have hent1 : (r.setEntry (rlKey idf) (.int (cnt + 1)) (some dl)).entries (rlKey idf) =
      some (.int (cnt + 1), some dl) := by simp [Redis.setEntry]
  have hnow1 : (r.setEntry (rlKey idf) (.int (cnt + 1)) (some dl)).now = r.now := rfl
  have hlive1 : (r.setEntry (rlKey idf) (.int (cnt + 1)) (some dl)).live (rlKey idf) =
      some (.int (cnt + 1)) := by simp [Redis.live, hent1, hnow1, hdl]
  have htpos : (0 : Int) < (dl : Int) - (r.now : Int) := by omega
  have hrem : max (0 : Int) (limit - (cnt + 1)) = 0 := by omega
  have hinfo : CacheService.get_rate_limit_info
      (r.setEntry (rlKey idf) (.int (cnt + 1)) (some dl)) limit idf =
      (rlInfoObj limit 0 ((dl : Int) - (r.now : Int)),
       r.setEntry (rlKey idf) (.int (cnt + 1)) (some dl)) := by
    simp [CacheService.get_rate_limit_info, Redis.rget, Redis.ttlCmd, hre1, hlive1, hent1,
      hnow1, hdl, rlInfoObj, htpos, hrem]
  simp [rate_limit, hchk, hall, hinfo, rlInfoObj, jget, pyGet, jlook, jshow]

theorem rate_limit_fail_open (limit : Int) (idf : String)
    (handler : AppState → HttpResult × AppState)
    {r : Redis} {cq : Option Queue} {n : Nat}
    (hre : r.reachable = false) :
    rate_limit limit (some idf) handler ⟨some r, cq, n⟩ = handler ⟨some r, cq, n⟩ := by
  have hchk : CacheService.check_rate_limit r limit idf 60 = ((true, 0), r) := by
    simp [CacheService.check_rate_limit, Redis.incr, hre]
  have hinfo : CacheService.get_rate_limit_info r limit idf = (rlInfoDegraded, r) := by
    simp [CacheService.get_rate_limit_info, Redis.rget, hre]
  simp [rate_limit, hchk, hinfo]

/-- C4: one atomic counter increment decides admission.  If the incremented
count stays within the limit the wrapped handler runs (with the counter
advanced by exactly one and the window deadline kept); if it exceeds the
limit the request is rejected with `rate_limit_exceeded` 429 whose
`meta.rate_limit` carries `{limit, remaining = 0, reset_in_seconds}`; and an
expired window restarts the counter at 1 with a fresh 60-second expiry. -/
theorem rate_limit_boundary_behavior :
    (∀ (limit : Int) (idf : String) (handler : AppState → HttpResult × AppState)
       (r : Redis) (cq : Option Queue) (n : Nat) (cnt : Int) (dl : Nat),
      r.reachable = true →
      r.entries (rlKey idf) = some (.int cnt, some dl) →
      r.now < dl → 1 ≤ cnt → cnt + 1 ≤ limit →
      rate_limit limit (some idf) handler ⟨some r, cq, n⟩ =
        handler ⟨some (r.setEntry (rlKey idf) (.int (cnt + 1)) (some dl)), cq, n⟩) ∧
    (∀ (limit : Int) (idf : String) (handler : AppState → HttpResult × AppState)
       (r : Redis) (cq : Option Queue) (n : Nat) (cnt : Int) (dl : Nat),
      r.reachable = true →
      r.entries (rlKey idf) = some (.int cnt, some dl) →
      r.now < dl → 1 ≤ cnt → limit < cnt + 1 →
      rate_limit limit (some idf) handler ⟨some r, cq, n⟩ =
        (⟨StandardResponse.error "rate_limit_exceeded"
            ("Rate limit exceeded. Limit: " ++ toString limit ++
             " requests per minute. Try again in " ++
             toString ((dl : Int) - (r.now : Int)) ++ " seconds.")
            (.obj [("rate_limit", rlInfoObj limit 0 ((dl : Int) - (r.now : Int)))]), 429⟩,
         ⟨some (r.setEntry (rlKey idf) (.int (cnt + 1)) (some dl)), cq, n⟩)) ∧
    (∀ (r : Redis) (limit : Int) (idf : String) (cnt : Int) (dl : Nat),
      r.reachable = true →
      r.entries (rlKey idf) = some (.int cnt, some dl) →
      dl ≤ r.now →
      (CacheService.check_rate_limit r limit idf 60).1 = (decide ((1 : Int) ≤ limit), 1) ∧
      (CacheService.check_rate_limit r limit idf 60).2.entries (rlKey idf) =
        some (.int 1, some (r.now + 60))) := by
  refine ⟨?_, ?_, ?_⟩
  · intro limit idf handler r cq n cnt dl hreach hent hdl hcnt hle
    exact rate_limit_admits limit idf handler hreach hent hdl hcnt hle
  · intro limit idf handler r cq n cnt dl hreach hent hdl hcnt hgt
    exact rate_limit_rejects limit idf handler hreach hent hdl hcnt hgt
  · intro r limit idf cnt dl hreach hent hexp
    obtain ⟨h1, h2⟩ := check_rate_limit_expired r limit idf hreach hent hexp
    rw [h1]
    exact ⟨rfl, h2⟩

/-- Witness for C4 at limit 100: the 100th request (counter at 99) is
admitted, the 101st (counter at 100) is rejected with the populated
rate-limit metadata, and an expired window restarts at count 1. -/
theorem rate_limit_boundary_behavior_witness :
    (r99.reachable = true ∧ r99.entries (rlKey "api") = some (.int 99, some 60) ∧
     r100.entries (rlKey "api") = some (.int 100, some 60) ∧
     rExpired.entries (rlKey "api") = some (.int 100, some 60) ∧ (60 : Nat) ≤ rExpired.now) ∧
    (rate_limit 100 (some "api") (fun st => send_email_notification gen0 "T0" "E0" st body1)
        ⟨some r99, some qBase, 0⟩ =
      (fun st => send_email_notification gen0 "T0" "E0" st body1)
        ⟨some (r99.setEntry (rlKey "api") (.int 100) (some 60)), some qBase, 0⟩) ∧
    (rate_limit 100 (some "api") (fun st => send_email_notification gen0 "T0" "E0" st body1)
        ⟨some r100, some qBase, 0⟩ =
      (⟨StandardResponse.error "rate_limit_exceeded"
          ("Rate limit exceeded. Limit: " ++ toString (100 : Int) ++
           " requests per minute. Try again in " ++
           toString (((60 : Nat) : Int) - ((r100.now : Nat) : Int)) ++ " seconds.")
          (.obj [("rate_limit", rlInfoObj 100 0 (((60 : Nat) : Int) - ((r100.now : Nat) : Int)))]), 429⟩,
       ⟨some (r100.setEntry (rlKey "api") (.int 101) (some 60)), some qBase, 0⟩)) ∧
    ((CacheService.check_rate_limit rExpired 100 "api" 60).1 = (decide ((1 : Int) ≤ 100), 1) ∧
     (CacheService.check_rate_limit rExpired 100 "api" 60).2.entries (rlKey "api") =
       some (.int 1, some (rExpired.now + 60))) :=
  ⟨⟨rfl, rfl, rfl, rfl, by decide⟩,
   rate_limit_boundary_behavior.1 100 "api" (fun st => send_email_notification gen0 "T0" "E0" st body1)
     r99 (some qBase) 0 99 60 rfl rfl (by decide) (by decide) (by decide),
   rate_limit_boundary_behavior.2.1 100 "api" (fun st => send_email_notification gen0 "T0" "E0" st body1)
     r100 (some qBase) 0 100 60 rfl rfl (by decide) (by decide) (by decide),
   rate_limit_boundary_behavior.2.2 rExpired 100 "api" 100 60 rfl rfl (by decide)⟩

/-- A status write against an unreachable backend is swallowed: it reports
failure and leaves the backend unchanged. -/
theorem set_notification_status_down {r : Redis} (nid : String) (sd : JValue)
    (hre : r.reachable = false) :
    CacheService.set_notification_status r nid sd = (false, r) := by
  simp [CacheService.set_notification_status, Redis.setex, hre]

theorem email_skips_replay_nokey (gen : Nat → String) (nowIso est : String)
    {c : Option Redis} {cq : Option Queue} {n : Nat} {data : List (String × JValue)}
    (hval : EmailNotificationRequest.validate data "email" = none)
    (hikf : (pyGet data "idempotency_key").truthy = false) :
    send_email_notification gen nowIso est ⟨c, cq, n⟩ data =
      emailAfterIdem gen nowIso est data ⟨c, cq, n⟩ := by
  simp only [send_email_notification, hval]
  rw [hikf]
  rfl

theorem push_skips_replay_nokey (gen : Nat → String) (nowIso est : String)
    {c : Option Redis} {cq : Option Queue} {n : Nat} {data : List (String × JValue)}
    (hval : PushNotificationRequest.validate data "push" = none)
    (hikf : (pyGet data "idempotency_key").truthy = false) :
    send_push_notification gen nowIso est ⟨c, cq, n⟩ data =
      pushAfterIdem gen nowIso est data ⟨c, cq, n⟩ := by
  simp only [send_push_notification, hval]
  rw [hikf]
  rfl

theorem emailAfterIdem_success_cache_down (gen : Nat → String) (nowIso est : String)
    {data : List (String × JValue)} {r : Redis} {q : Queue} {n : Nat}
    (hre : r.reachable = false) (hconn : q.connected = true) (hpub : q.publishOk = true)
    (hikf : (pyGet data "idempotency_key").truthy = false) :
    emailAfterIdem gen nowIso est data ⟨some r, some q, n⟩ =
      (⟨StandardResponse.success (NotificationResponse.create (gen n) "queued" (some est))
          "Email notification queued successfully" .null, 202⟩,
       ⟨some r,
        some { q with published := q.published ++ [builtPubMsg q gen n nowIso "email"
          (pyGet data "user_id") (pyGet data "template_id") (pyGetD data "variables" (.obj []))
          (pyGet data "idempotency_key")] },
        n + 2⟩) := by
  have hqe := publish_success_eq q gen n nowIso "email" (pyGet data "user_id")
    (pyGet data "template_id") (pyGetD data "variables" (.obj []))
    (pyGet data "idempotency_key") hconn hpub
  have hset : ∀ sd, CacheService.set_notification_status r (gen n) sd = (false, r) :=
    fun sd => set_notification_status_down (gen n) sd hre
  simp [emailAfterIdem, QueueService.is_connected, hconn, hqe, hset, hikf]

theorem pushAfterIdem_success_cache_down (gen : Nat → String) (nowIso est : String)
    {data : List (String × JValue)} {r : Redis} {q : Queue} {n : Nat}
    (hre : r.reachable = false) (hconn : q.connected = true) (hpub : q.publishOk = true)
    (hikf : (pyGet data "idempotency_key").truthy = false) :
    pushAfterIdem gen nowIso est data ⟨some r, some q, n⟩ =
      (⟨StandardResponse.success (NotificationResponse.create (gen n) "queued" (some est))
          "Push notification queued successfully" .null, 202⟩,
       ⟨some r,
        some { q with published := q.published ++ [builtPubMsg q gen n nowIso "push"
          (pyGet data "user_id") (pyGet data "template_id") (pyGetD data "variables" (.obj []))
          (pyGet data "idempotency_key")] },
        n + 2⟩) := by
  have hqe := publish_success_eq q gen n nowIso "push" (pyGet data "user_id")
    (pyGet data "template_id") (pyGetD data "variables" (.obj []))
    (pyGet data "idempotency_key") hconn hpub
  have hset : ∀ sd, CacheService.set_notification_status r (gen n) sd = (false, r) :=
    fun sd => set_notification_status_down (gen n) sd hre
  simp [pushAfterIdem, QueueService.is_connected, hconn, hqe, hset, hikf]

/-- C5: with the cache backend unreachable but the broker healthy, a
keyless submission still succeeds: the rate-limit check fails open, the
idempotency lookup is skipped, the notification is published (one message
appended), the failed post-publish status write is swallowed, and the
endpoint returns the 202 success response with the backend state unchanged. -/
theorem cache_outage_fail_open (limit : Int) (idf : String) (gen : Nat → String)
    (nowIso est : String) (r : Redis) (q : Queue) (n : Nat)
    (data : List (String × JValue))
    (hre : r.reachable = false) (hconn : q.connected = true) (hpub : q.publishOk = true)
    (hval : EmailNotificationRequest.validate data "email" = none)
    (hnokey : jlook data "idempotency_key" = none) :
    rate_limit limit (some idf) (fun st => send_email_notification gen nowIso est st data)
        ⟨some r, some q, n⟩ =
      (⟨StandardResponse.success (NotificationResponse.create (gen n) "queued" (some est))
          "Email notification queued successfully" .null, 202⟩,
       ⟨some r,
        some { q with published := q.published ++ [builtPubMsg q gen n nowIso "email"
          (pyGet data "user_id") (pyGet data "template_id") (pyGetD data "variables" (.obj []))
          (pyGet data "idempotency_key")] },
        n + 2⟩) ∧
    rate_limit limit (some idf) (fun st => send_push_notification gen nowIso est st data)
        ⟨some r, some q, n⟩ =
      (⟨StandardResponse.success (NotificationResponse.create (gen n) "queued" (some est))
          "Push notification queued successfully" .null, 202⟩,
       ⟨some r,
        some { q with published := q.published ++ [builtPubMsg q gen n nowIso "push"
          (pyGet data "user_id") (pyGet data "template_id") (pyGetD data "variables" (.obj []))
          (pyGet data "idempotency_key")] },
        n + 2⟩) := by
  have hikf : (pyGet data "idempotency_key").truthy = false := by
    simp [pyGet, hnokey, JValue.truthy]
  constructor
  · rw [rate_limit_fail_open limit idf _ hre]
    show send_email_notification gen nowIso est ⟨some r, some q, n⟩ data = _
    rw [email_skips_replay_nokey gen nowIso est hval hikf]
    exact emailAfterIdem_success_cache_down gen nowIso est hre hconn hpub hikf
  · rw [rate_limit_fail_open limit idf _ hre]
    show send_push_notification gen nowIso est ⟨some r, some q, n⟩ data = _
    rw [push_skips_replay_nokey gen nowIso est hval hikf]
    exact pushAfterIdem_success_cache_down gen nowIso est hre hconn hpub hikf

/-- Witness for C5: a keyless request on an unreachable backend `rDown` and
a healthy broker `qBase` succeeds with 202 and publishes exactly once. -/
theorem cache_outage_fail_open_witness :
    (rDown.reachable = false ∧ qBase.connected = true ∧ qBase.publishOk = true ∧
     EmailNotificationRequest.validate body1 "email" = none ∧
     jlook body1 "idempotency_key" = none) ∧
    rate_limit 100 (some "api") (fun st => send_email_notification gen0 "T0" "E0" st body1)
        ⟨some rDown, some qBase, 0⟩ =
      (⟨StandardResponse.success (NotificationResponse.create (gen0 0) "queued" (some "E0"))
          "Email notification queued successfully" .null, 202⟩,
       ⟨some rDown,
        some { qBase with published := qBase.published ++ [builtPubMsg qBase gen0 0 "T0" "email"
          (pyGet body1 "user_id") (pyGet body1 "template_id") (pyGetD body1 "variables" (.obj []))
          (pyGet body1 "idempotency_key")] },
        0 + 2⟩) :=
  ⟨⟨rfl, rfl, rfl, rfl, rfl⟩,
   (cache_outage_fail_open 100 "api" gen0 "T0" "E0" rDown qBase 0 body1
     rfl rfl rfl rfl rfl).1⟩

/-- C9: for an authenticated request with the cache service available, the
rate-limit counter is incremented exactly once (from `cnt` to `cnt + 1`,
window deadline kept) before the handler validates, so a request rejected
with `validation_error` still consumed quota. -/
theorem rate_limit_counted_before_validation (limit : Int) (idf : String)
    (gen : Nat → String) (nowIso est : String)
    (r : Redis) (cq : Option Queue) (n : Nat) (cnt : Int) (dl : Nat)
    (data : List (String × JValue)) (errs : List String)
    (hreach : r.reachable = true)
    (hent : r.entries (rlKey idf) = some (.int cnt, some dl))
    (hdl : r.now < dl) (hcnt : 1 ≤ cnt) (hle : cnt + 1 ≤ limit)
    (hval : EmailNotificationRequest.validate data "email" = some errs) :
    rate_limit limit (some idf) (fun st => send_email_notification gen nowIso est st data)
        ⟨some r, cq, n⟩ =
      (⟨validationErrorResp errs, 400⟩,
       ⟨some (r.setEntry (rlKey idf) (.int (cnt + 1)) (some dl)), cq, n⟩) ∧
    AppState.cacheEntry ⟨some (r.setEntry (rlKey idf) (.int (cnt + 1)) (some dl)), cq, n⟩
        (rlKey idf) = some (.int (cnt + 1), some dl) := by
  constructor
  · rw [rate_limit_admits limit idf _ hreach hent hdl hcnt hle]
    show send_email_notification gen nowIso est
      ⟨some (r.setEntry (rlKey idf) (.int (cnt + 1)) (some dl)), cq, n⟩ data = _
    exact email_validation_short_circuit gen nowIso est _ hval
  · simp [AppState.cacheEntry, Redis.setEntry]

/-- Witness for C9: a request missing `user_id` against the counter-at-99
backend is rejected 400 yet the counter stands at 100 afterwards. -/
theorem rate_limit_counted_before_validation_witness :
    (r99.reachable = true ∧ r99.entries (rlKey "api") = some (.int 99, some 60) ∧
     EmailNotificationRequest.validate [("template_id", JValue.str "t1")] "email" =
       some ["\x27user_id\x27 is required."]) ∧
    (rate_limit 100 (some "api")
        (fun st => send_email_notification gen0 "T0" "E0" st [("template_id", JValue.str "t1")])
        ⟨some r99, some qBase, 0⟩ =
      (⟨validationErrorResp ["\x27user_id\x27 is required."], 400⟩,
       ⟨some (r99.setEntry (rlKey "api") (.int 100) (some 60)), some qBase, 0⟩) ∧
     AppState.cacheEntry ⟨some (r99.setEntry (rlKey "api") (.int 100) (some 60)), some qBase, 0⟩
        (rlKey "api") = some (.int 100, some 60)) :=
  ⟨⟨rfl, rfl, rfl⟩,
   rate_limit_counted_before_validation 100 "api" gen0 "T0" "E0" r99 (some qBase) 0 99 60
     [("template_id", JValue.str "t1")] ["\x27user_id\x27 is required."]
     rfl rfl (by decide) (by decide) (by decide) rfl⟩

/-- The status and idempotency key namespaces never collide. -/
theorem statusKey_ne_idemKey (a b : String) : statusKey a ≠ idemKey b := by
  intro h
  have hd := congrArg String.data h
  simp only [statusKey, idemKey, String.data_append] at hd
  simp only [List.cons_append, List.cons.injEq] at hd
  exact absurd hd.1 (by decide)

theorem setEntry_reachable (r : Redis) (k : String) (v : RVal) (d : Option Nat) :
    (r.setEntry k v d).reachable = r.reachable := rfl

theorem setEntry_now (r : Redis) (k : String) (v : RVal) (d : Option Nat) :
    (r.setEntry k v d).now = r.now := rfl

/-- The success body of the email endpoint. -/
def emailSuccessResp (gen : Nat → String) (n : Nat) (est : String) : JValue :=
  StandardResponse.success (NotificationResponse.create (gen n) "queued" (some est))
    "Email notification queued successfully" .null

/-- The status record the email endpoint writes after a publish. -/
def emailStatusData (gen : Nat → String) (n : Nat) (data : List (String × JValue))
    (nowIso : String) : JValue :=
  .obj [("notification_id", .str (gen n)), ("type", .str "email"), ("status", .str "queued"),
        ("user_id", pyGet data "user_id"), ("template_id", pyGet data "template_id"),
        ("created_at", .str nowIso), ("updated_at", .str nowIso)]

/-- The email success path with a reachable cache: 202 with the success
body, one publish appended, and a status record at `statusKey (gen n)` with
a `now + 86400` expiry in the resulting backend (whether or not an
idempotency record was also written). -/
theorem emailAfterIdem_success (gen : Nat → String) (nowIso est : String)
    (data : List (String × JValue)) {r : Redis} {q : Queue} {n : Nat}
    (hre : r.reachable = true) (hconn : q.connected = true) (hpub : q.publishOk = true) :
    ∃ rf : Redis,
      emailAfterIdem gen nowIso est data ⟨some r, some q, n⟩ =
        (⟨emailSuccessResp gen n est, 202⟩,
         ⟨some rf,
          some { q with published := q.published ++ [builtPubMsg q gen n nowIso "email"
            (pyGet data "user_id") (pyGet data "template_id") (pyGetD data "variables" (.obj []))
            (pyGet data "idempotency_key")] },
          n + 2⟩) ∧
      rf.reachable = true ∧ rf.now = r.now ∧
      rf.entries (statusKey (gen n)) =
        some (.json (emailStatusData gen n data nowIso), some (r.now + 86400)) := by
  have hqe := publish_success_eq q gen n nowIso "email" (pyGet data "user_id")
    (pyGet data "template_id") (pyGetD data "variables" (.obj []))
    (pyGet data "idempotency_key") hconn hpub
  have hset : ∀ sd : JValue, CacheService.set_notification_status r (gen n) sd =
      (true, r.setEntry (statusKey (gen n)) (.json sd) (some (r.now + 86400))) := by
    intro sd
    simp [CacheService.set_notification_status, Redis.setex, hre]
  have hstoreAll : ∀ (r2 : Redis) (k : String) (resp : JValue), r2.reachable = true →
      CacheService.store_idempotency r2 k resp =
        (true, r2.setEntry (idemKey k) (.json resp) (some (r2.now + 86400))) := by
    intro r2 k resp h2
    simp [CacheService.store_idempotency, Redis.setex, h2]
  by_cases hik : (pyGet data "idempotency_key").truthy = true
  · refine ⟨(r.setEntry (statusKey (gen n)) (.json (emailStatusData gen n data nowIso))
        (some (r.now + 86400))).setEntry (idemKey (jshow (pyGet data "idempotency_key")))
        (.json (emailSuccessResp gen n est)) (some (r.now + 86400)), ?_, hre, rfl, ?_⟩
    · have hstore := hstoreAll
        (r.setEntry (statusKey (gen n)) (.json (emailStatusData gen n data nowIso))
          (some (r.now + 86400)))
        (jshow (pyGet data "idempotency_key")) (emailSuccessResp gen n est) hre
      simp only [emailStatusData, emailSuccessResp, setEntry_now] at hstore
      simp [emailAfterIdem, QueueService.is_connected, hconn, hqe, hik,
        emailSuccessResp, emailStatusData, hset, hstore, setEntry_now]
    · simp [Redis.setEntry, statusKey_ne_idemKey]
  · refine ⟨r.setEntry (statusKey (gen n)) (.json (emailStatusData gen n data nowIso))
        (some (r.now + 86400)), ?_, hre, rfl, ?_⟩
    · rw [Bool.not_eq_true] at hik
      simp [emailAfterIdem, QueueService.is_connected, hconn, hqe, hik,
        emailSuccessResp, emailStatusData, hset]
    · simp [Redis.setEntry]

/-- A status query that finds a live record returns 200 with the stored
fields and `delivery_info`. -/
theorem get_status_found {r : Redis} (cq : Option Queue) (n : Nat) (nid : String)
    {sd : JValue} {dl : Nat}
    (hre : r.reachable = true)
    (hent : r.entries (statusKey nid) = some (.json sd, some dl))
    (hdl : r.now < dl) (hsd : sd.truthy = true) :
    get_notification_status ⟨some r, cq, n⟩ nid =
      (⟨StandardResponse.success (StatusResponse.create (jget sd "notification_id")
          (jget sd "status") (jget sd "created_at") (jget sd "updated_at")
          (some (.obj [("type", jget sd "type"), ("user_id", jget sd "user_id"),
                       ("template_id", jget sd "template_id")])))
          "Notification status retrieved successfully" .null, 200⟩,
       ⟨some r, cq, n⟩) := by
  have hlive : r.live (statusKey nid) = some (.json sd) := by
    simp [Redis.live, hent, hdl]
  have hg : CacheService.get_notification_status r nid = (some sd, r) := by
    simp [CacheService.get_notification_status, Redis.rget, hre, hlive]
  simp [get_notification_status, CacheService.is_connected, Redis.ping, hre, hg, hsd]

/-- A status query on a connected backend with no live record returns 404. -/
theorem get_status_missing {r : Redis} (cq : Option Queue) (n : Nat) (nid : String)
    (hre : r.reachable = true) (hl : r.live (statusKey nid) = none) :
    get_notification_status ⟨some r, cq, n⟩ nid =
      (⟨notFoundResp nid, 404⟩, ⟨some r, cq, n⟩) := by
  have hg : CacheService.get_notification_status r nid = (none, r) := by
    simp [CacheService.get_notification_status, Redis.rget, hre, hl]
  simp [get_notification_status, CacheService.is_connected, Redis.ping, hre, hg]

/-- C6: a successful email submission returns 202 with `notification_id`
`gen n`, and a status query for that id on the resulting state (cache
available, within the 24h TTL) returns 200 with status `queued`, the
original `user_id`/`template_id`, and `delivery_info {type, user_id,
template_id}`; the same query after the TTL deadline returns `not_found`
404. -/
theorem status_roundtrip (gen : Nat → String) (nowIso est : String)
    (r : Redis) (q : Queue) (n : Nat) (data : List (String × JValue))
    (hval : EmailNotificationRequest.validate data "email" = none)
    (hmiss : r.live (idemKey (jshow (pyGet data "idempotency_key"))) = none)
    (hre : r.reachable = true) (hconn : q.connected = true) (hpub : q.publishOk = true) :
    ∃ (rf : Redis) (qf : Queue),
      send_email_notification gen nowIso est ⟨some r, some q, n⟩ data =
        (⟨emailSuccessResp gen n est, 202⟩, ⟨some rf, some qf, n + 2⟩) ∧
      get_notification_status ⟨some rf, some qf, n + 2⟩ (gen n) =
        (⟨StandardResponse.success
            (StatusResponse.create (.str (gen n)) (.str "queued") (.str nowIso) (.str nowIso)
              (some (.obj [("type", .str "email"), ("user_id", pyGet data "user_id"),
                           ("template_id", pyGet data "template_id")])))
            "Notification status retrieved successfully" .null, 200⟩,
         ⟨some rf, some qf, n + 2⟩) ∧
      (∀ t, r.now + 86400 ≤ t →
        get_notification_status ⟨some (rf.atTime t), some qf, n + 2⟩ (gen n) =
          (⟨notFoundResp (gen n), 404⟩, ⟨some (rf.atTime t), some qf, n + 2⟩)) := by
  obtain ⟨rf, heq, hrf_re, hrf_now, hrf_ent⟩ :=
    emailAfterIdem_success gen nowIso est data hre hconn hpub
  refine ⟨rf, { q with published := q.published ++ [builtPubMsg q gen n nowIso "email"
      (pyGet data "user_id") (pyGet data "template_id") (pyGetD data "variables" (.obj []))
      (pyGet data "idempotency_key")] }, ?_, ?_, ?_⟩
  · rw [email_skips_replay gen nowIso est hval
      (fun r0 h0 => by injection h0 with h1; rw [← h1]; exact hmiss)]
    exact heq
  · have hdl : rf.now < r.now + 86400 := by omega
    have hsd : (emailStatusData gen n data nowIso).truthy = true := rfl
    exact get_status_found _ (n + 2) (gen n) hrf_re hrf_ent hdl hsd
  · intro t ht
    have hre2 : (rf.atTime t).reachable = true := hrf_re
    have hl : (rf.atTime t).live (statusKey (gen n)) = none := by
      have hent2 : (rf.atTime t).entries (statusKey (gen n)) =
          some (.json (emailStatusData gen n data nowIso), some (r.now + 86400)) := hrf_ent
      have hnow2 : (rf.atTime t).now = t := rfl
      have hnot : ¬ (rf.atTime t).now < r.now + 86400 := by
        rw [hnow2]
        omega
      simp [Redis.live, hent2, hnot]
    exact get_status_missing _ (n + 2) (gen n) hre2 hl

/-- Witness for C6: a concrete submission on `rBase`/`qBase` followed by a
status query for `uuid-0`, within the TTL and at its expiry. -/
theorem status_roundtrip_witness :
    (EmailNotificationRequest.validate body1 "email" = none ∧
     rBase.live (idemKey (jshow (pyGet body1 "idempotency_key"))) = none ∧
     rBase.reachable = true ∧ qBase.connected = true ∧ qBase.publishOk = true) ∧
    (∃ (rf : Redis) (qf : Queue),
      send_email_notification gen0 "T0" "E0" ⟨some rBase, some qBase, 0⟩ body1 =
        (⟨emailSuccessResp gen0 0 "E0", 202⟩, ⟨some rf, some qf, 0 + 2⟩) ∧
      get_notification_status ⟨some rf, some qf, 0 + 2⟩ (gen0 0) =
        (⟨StandardResponse.success
            (StatusResponse.create (.str (gen0 0)) (.str "queued") (.str "T0") (.str "T0")
              (some (.obj [("type", .str "email"), ("user_id", pyGet body1 "user_id"),
                           ("template_id", pyGet body1 "template_id")])))
            "Notification status retrieved successfully" .null, 200⟩,
         ⟨some rf, some qf, 0 + 2⟩) ∧
      (∀ t, rBase.now + 86400 ≤ t →
        get_notification_status ⟨some (rf.atTime t), some qf, 0 + 2⟩ (gen0 0) =
          (⟨notFoundResp (gen0 0), 404⟩, ⟨some (rf.atTime t), some qf, 0 + 2⟩))) :=
  ⟨⟨rfl, rfl, rfl, rfl, rfl⟩,
   status_roundtrip gen0 "T0" "E0" rBase qBase 0 body1 rfl rfl rfl rfl rfl⟩
